import Mathlib

/-!
# mate-settings-daemon: the plugin manager

A shallow embedding of `mate-settings-daemon/mate-settings-manager.c` and of the
session signal handler and the function `main` of `mate-settings-daemon/main.c`,
together with theorems about the registry of plugin descriptors, the load pass, the
D-Bus handlers, shutdown and the exit status.

Conventions of the embedding:

* C `int` / `gint` values are `Int`; the one arithmetic operation of the manager,
  the subtraction in `compare_priority`, is reduced to the 32-bit two's complement
  range by `wrap32`.
* A `GSList *` is a `List`; `NULL` is `[]`.
* The functions mutate the manager through a pointer and act on the outside world
  (log, signals, D-Bus calls and replies).  Here they map a `World` (the manager plus the trace
  of observable events so far) to the next `World`.
* Everything the manager reads from outside (directory listing, manifests, installed
  schemas, settings, module support, outcome of a plugin's own activation code) is a
  field of `Env`.
* `g_debug` and the profiling calls are not recorded.
-/

namespace MateSettings

/-! ## Data model -/

/-- Plugin descriptor (`MateSettingsPluginInfo`).  The type is declared in
`mate-settings-plugin-info.h`; the fields are those the manager reads through the
getters `get_location`, `get_priority`, `get_enabled`, plus the activation state. -/
structure MateSettingsPluginInfo where
  location : String
  priority : Int
  enabled : Bool
  active : Bool
  deriving DecidableEq, Repr

/-- Observable events, in the order in which they happen. -/
inductive Event where
  /-- A `g_warning` with its message. -/
  | warning (msg : String)
  /-- A call `mate_settings_plugin_info_activate (info)`; carries the location. -/
  | activate (location : String)
  /-- Emission of the manager signal `plugin-activated` with the plugin name. -/
  | plugin_activated (name : String)
  /-- A call `mate_settings_plugin_info_deactivate (info)`; carries the location. -/
  | deactivate (location : String)
  /-- Emission of the manager signal `plugin-deactivated` with the plugin name. -/
  | plugin_deactivated (name : String)
  /-- The reply `g_dbus_method_invocation_return_gerror (invocation, error)`. -/
  | return_gerror (msg : String)
  /-- The reply `org_mate_settings_daemon_complete_awake`. -/
  | complete_awake
  /-- The reply `org_mate_settings_daemon_complete_start`. -/
  | complete_start
  /-- The call `g_bus_own_name` of `mate_settings_manager_constructed`; carries whether
  the flag `G_BUS_NAME_OWNER_FLAGS_REPLACE` is set. -/
  | bus_own_name (replace : Bool)
  /-- The D-Bus call `EndSessionResponse (isOkay, reason)` to the session manager;
  carries `isOkay`. -/
  | end_session_response (is_okay : Bool)
  /-- A call of `gtk_main_quit ()`. -/
  | gtk_main_quit
  deriving DecidableEq, Repr

/-- What the main loop dispatches to the handlers of the daemon. -/
inductive Inbound where
  /-- The D-Bus method call `Awake`. -/
  | awake
  /-- The D-Bus method call `Start`. -/
  | start
  /-- A signal of the session manager's private client interface, with its name. -/
  | private_signal (signal_name : String)
  /-- The termination signal: the pipe watched by `watch_for_term_signal` is closed. -/
  | term_signal
  /-- The loss of the bus name. -/
  | name_lost
  deriving DecidableEq, Repr

/-- The fields of `struct MateSettingsManagerPrivate` the plugin logic uses
(`skeleton` and `bus_name_id` belong to the D-Bus plumbing). -/
structure MateSettingsManagerPrivate where
  plugins : List MateSettingsPluginInfo
  init_load_priority : Int
  load_init_flag : Int
  replace : Bool
  deriving DecidableEq, Repr

/-- The manager object. -/
structure MateSettingsManager where
  priv : MateSettingsManagerPrivate
  deriving DecidableEq, Repr

/-- The manager together with the trace of events observed so far. -/
structure World where
  manager : MateSettingsManager
  trace : List Event
  deriving DecidableEq, Repr

/-- What a manifest file yields when it parses: the plugin location and the priority
written in the manifest. -/
structure Manifest where
  location : String
  priority : Int
  deriving DecidableEq, Repr

/-- Everything the manager reads from outside the process. -/
structure Env where
  /-- Result of `g_module_supported ()`. -/
  g_module_supported : Bool
  /-- Build-time constant `MATE_SETTINGS_PLUGINDIR` (from `config.h`). -/
  MATE_SETTINGS_PLUGINDIR : String
  /-- Result of `g_dir_open (path)` followed by `g_dir_read_name` until `NULL`: the
  entry names in the order read, or the error message when the open fails. -/
  g_dir_open : String → Except String (List String)
  /-- Result of `g_file_test (filename, G_FILE_TEST_IS_REGULAR)`. -/
  g_file_test_is_regular : String → Bool
  /-- Parse of a manifest file; `none` when the file does not parse. -/
  manifest : String → Option Manifest
  /-- Result of `g_settings_schema_source_get_default ()` and
  `g_settings_schema_source_list_schemas`: `none` when there is no source, otherwise
  the non-relocatable and the relocatable schema names. -/
  schema_source : Option (List String × List String)
  /-- Value of the key `enabled` of a plugin schema. -/
  settings_enabled : String → Bool
  /-- Value of the key `priority` of a plugin schema. -/
  settings_priority : String → Int
  /-- Outcome of the plugin's own activation entry point, which may depend on
  everything that happened before the call. -/
  plugin_activate : List Event → MateSettingsPluginInfo → Bool
  /-- Outcome of the plugin's own teardown entry point, which may depend on everything
  that happened before the call. -/
  plugin_deactivate : List Event → MateSettingsPluginInfo → Bool
  /-- Value of the key `init-load-priority` of the schema
  `org.mate.SettingsDaemon.plugins`. -/
  settings_init_load_priority : Int
  /-- Result of the `g_dbus_proxy_call_sync` that sends `EndSessionResponse`: the error
  message when the call fails; it may depend on everything that happened before. -/
  g_dbus_proxy_call_sync : List Event → Except String Unit
  /-- The warning `parse_args` logs when `g_option_context_parse` fails; `none` when the
  command line parses. -/
  parse_args_failure : Option String
  /-- Result of `gtk_init_check`. -/
  gtk_init_check : Bool
  /-- The command line option `--replace`. -/
  replace : Bool
  /-- Result of `g_getenv ("DBUS_STARTER_BUS_TYPE")`. -/
  DBUS_STARTER_BUS_TYPE : Option String
  /-- Whether `watch_for_term_signal` gets its pipe (`pipe` and the two `fcntl` calls
  succeed). -/
  pipe : Bool
  /-- What the main loop receives, in order. -/
  inbound : List Inbound

/-! ## Constants -/

/-- Modelled from the spec: the load phase `All` of the enumeration
`{All, Eager, Deferred}`; `PLUGIN_LOAD_ALL` is declared in `mate-settings-manager.h`
and is the minimum and the default of the property `init-flag`. -/
def PLUGIN_LOAD_ALL : Int := 0

/-- Modelled from the spec: the load phase `Eager`; `PLUGIN_LOAD_INIT` is declared in
`mate-settings-manager.h`. -/
def PLUGIN_LOAD_INIT : Int := 1

/-- Modelled from the spec: the load phase `Deferred`; `PLUGIN_LOAD_DEFER` is declared
in `mate-settings-manager.h` and is the maximum of the property `init-flag`. -/
def PLUGIN_LOAD_DEFER : Int := 2

/-- The macro `DEFAULT_SETTINGS_PREFIX`. -/
def DEFAULT_SETTINGS_NAMESPACE : String := "org.mate.SettingsDaemon"

/-- The macro `PLUGIN_EXT`. -/
def PLUGIN_EXT : String := ".mate-settings-plugin"

/-! ## Machine arithmetic and library functions -/

/-- Reduction of an integer to the 32-bit two's complement range `[-2^31, 2^31)`. -/
def wrap32 (x : Int) : Int := (x + 2147483648) % 4294967296 - 2147483648

/-- The loop of `strcmp` on the characters of the two strings: skip the common part,
then compare the first characters that differ (or the end of a string). -/
def strcmp_chars : List Char → List Char → Int
  | [], [] => 0
  | [], _ :: _ => -1
  | _ :: _, [] => 1
  | a :: as, b :: bs =>
    if a = b then strcmp_chars as bs else if a.toNat < b.toNat then -1 else 1

/-- Sign of `strcmp`: negative, zero or positive as the first string is below, equal to
or above the second. -/
def strcmp (a b : String) : Int :=
  strcmp_chars a.toList b.toList

/-- The loop of GLib's `g_slist_sort_merge`, taking from the second list: used once
the head `x` of the first list is fixed; `rec` merges the rest of the first list. -/
def g_slist_sort_merge_aux {α : Type} (cmp : α → α → Int) (x : α) (xs : List α)
    (rec : List α → List α) : List α → List α
  | [] => x :: xs
  | y :: ys =>
    if cmp x y ≤ 0 then x :: rec (y :: ys)
    else y :: g_slist_sort_merge_aux cmp x xs rec ys

/-- GLib's `g_slist_sort_merge`: while both lists are non-empty, take the head of the
first one when `cmp l1->data l2->data <= 0` and the head of the second one otherwise;
then append what is left. -/
def g_slist_sort_merge {α : Type} (cmp : α → α → Int) : List α → List α → List α
  | [], l2 => l2
  | x :: xs, l2 => g_slist_sort_merge_aux cmp x xs (g_slist_sort_merge cmp xs) l2

/-- GLib's `g_slist_sort_real`: a list of fewer than two elements is returned as it
is; otherwise the list is cut after its first `length / 2` elements (the walk of `l1`
and `l2` in the C code), both parts are sorted and the results merged.  The first
argument bounds the recursion depth. -/
def g_slist_sort_real {α : Type} (cmp : α → α → Int) : Nat → List α → List α
  | 0, list => list
  | fuel + 1, list =>
    match list with
    | [] => []
    | [x] => [x]
    | x :: y :: rest =>
      let l := x :: y :: rest
      g_slist_sort_merge cmp
        (g_slist_sort_real cmp fuel (l.take (l.length / 2)))
        (g_slist_sort_real cmp fuel (l.drop (l.length / 2)))

/-- GLib's `g_slist_sort`.  Each recursive call is on a strictly shorter list, so the
length of the list bounds the recursion depth. -/
def g_slist_sort {α : Type} (list : List α) (cmp : α → α → Int) : List α :=
  g_slist_sort_real cmp list.length list

/-- GLib's `g_slist_find_custom`: the first element `e` with `func e data = 0`. -/
def g_slist_find_custom {α : Type} (list : List α) (data : α) (func : α → α → Int) :
    Option α :=
  list.find? (fun e => func e data == 0)

/-- GLib's `g_slist_foreach` for a callback that may change the element it is given
and the state of the world `σ`. -/
def g_slist_foreach {α σ : Type} (func : α → σ → α × σ) : List α → σ → List α × σ
  | [], s => ([], s)
  | x :: xs, s =>
    let r := func x s
    let rs := g_slist_foreach func xs r.2
    (r.1 :: rs.1, rs.2)

/-- GLib's `g_str_has_suffix`. -/
def g_str_has_suffix (str suffix : String) : Bool :=
  suffix.toList.isSuffixOf str.toList

/-- GLib's `g_build_filename` for a directory path that ends with the separator and an
entry name: the name is appended. -/
def g_build_filename (path name : String) : String := path ++ name

/-! ## The plugin descriptor interface (`mate-settings-plugin-info.c`) -/

/-- Modelled from the spec: `mate_settings_plugin_info_get_location` is in
`mate-settings-plugin-info.c`; the location is the descriptor's key, a string every
descriptor has, so the getter never returns `NULL` (`none`). -/
def mate_settings_plugin_info_get_location (info : MateSettingsPluginInfo) :
    Option String :=
  some info.location

/-- Modelled from the spec: `mate_settings_plugin_info_get_priority` is in
`mate-settings-plugin-info.c`; it reads the descriptor's priority. -/
def mate_settings_plugin_info_get_priority (info : MateSettingsPluginInfo) : Int :=
  info.priority

/-- Modelled from the spec: `mate_settings_plugin_info_get_enabled` is in
`mate-settings-plugin-info.c`; it reads the descriptor's enabled flag. -/
def mate_settings_plugin_info_get_enabled (info : MateSettingsPluginInfo) : Bool :=
  info.enabled

/-- Modelled from the spec: `mate_settings_plugin_info_new_from_file` is in
`mate-settings-plugin-info.c`; it parses the manifest and returns `NULL` (`none`) when
the parse fails, otherwise a descriptor with the manifest's location and priority that
starts Inactive. -/
def mate_settings_plugin_info_new_from_file (env : Env) (filename : String) :
    Option MateSettingsPluginInfo :=
  (env.manifest filename).map fun m =>
    { location := m.location, priority := m.priority, enabled := false, active := false }

/-- Modelled from the spec: `mate_settings_plugin_info_set_schema` is in
`mate-settings-plugin-info.c`; it reads `enabled` and `priority` from the storage of
the plugin's schema into the descriptor. -/
def mate_settings_plugin_info_set_schema (env : Env) (info : MateSettingsPluginInfo)
    (schema : String) : MateSettingsPluginInfo :=
  { info with enabled := env.settings_enabled schema,
              priority := env.settings_priority schema }

/-- Modelled from the spec: `mate_settings_plugin_info_activate` is in
`mate-settings-plugin-info.c`; a no-op returning true if the descriptor is already
Active, otherwise it invokes the plugin's own activation entry point: on success the
state becomes Active and an Activated event is emitted (the manager's handler
`on_plugin_activated` re-emits it as `plugin-activated`), on failure the state stays
Inactive and the result is false.  The call itself is recorded in the trace. -/
def mate_settings_plugin_info_activate (env : Env) (info : MateSettingsPluginInfo)
    (trace : List Event) : Bool × MateSettingsPluginInfo × List Event :=
  let trace1 := trace ++ [Event.activate info.location]
  if info.active then (true, info, trace1)
  else if env.plugin_activate trace1 info then
    (true, { info with active := true }, trace1 ++ [Event.plugin_activated info.location])
  else (false, info, trace1)

/-- Modelled from the spec: `mate_settings_plugin_info_deactivate` is in
`mate-settings-plugin-info.c`; a no-op if the descriptor is already Inactive, otherwise
it invokes the plugin's teardown entry point, sets the state Inactive and emits a
Deactivated event (the manager's handler `on_plugin_deactivated` re-emits it as
`plugin-deactivated`); a failure of the teardown is logged and swallowed.  The call
itself is recorded in the trace. -/
def mate_settings_plugin_info_deactivate (env : Env) (info : MateSettingsPluginInfo)
    (trace : List Event) : MateSettingsPluginInfo × List Event :=
  let trace1 := trace ++ [Event.deactivate info.location]
  if info.active then
    let trace2 :=
      if env.plugin_deactivate trace1 info then trace1
      else trace1 ++ [Event.warning ("Plugin " ++ info.location ++ ": deactivation failed")]
    ({ info with active := false }, trace2 ++ [Event.plugin_deactivated info.location])
  else (info, trace1)

/-! ## `mate-settings-manager.c` -/

/-- The function `maybe_activate_plugin`: the callback of the load pass.  It changes the
descriptor and the trace, and reads the phase and the threshold of the manager. -/
def maybe_activate_plugin (env : Env) (manager : MateSettingsManager)
    (info : MateSettingsPluginInfo) (trace : List Event) :
    MateSettingsPluginInfo × List Event :=
  if mate_settings_plugin_info_get_enabled info then
    let plugin_priority := mate_settings_plugin_info_get_priority info
    if manager.priv.load_init_flag == PLUGIN_LOAD_ALL ||
       (manager.priv.load_init_flag == PLUGIN_LOAD_INIT &&
          decide (plugin_priority ≤ manager.priv.init_load_priority)) ||
       (manager.priv.load_init_flag == PLUGIN_LOAD_DEFER &&
          decide (plugin_priority > manager.priv.init_load_priority)) then
      let res := mate_settings_plugin_info_activate env info trace
      (res.2.1, res.2.2)
    else
      (info, trace)
  else
    (info, trace)

/-- The function `compare_location`. -/
def compare_location (a b : MateSettingsPluginInfo) : Int :=
  match mate_settings_plugin_info_get_location a,
        mate_settings_plugin_info_get_location b with
  | some loc_a, some loc_b => strcmp loc_a loc_b
  | _, _ => -1

/-- The function `compare_priority`: the difference of the two priorities, as a 32-bit
`int`. -/
def compare_priority (a b : MateSettingsPluginInfo) : Int :=
  let prio_a := mate_settings_plugin_info_get_priority a
  let prio_b := mate_settings_plugin_info_get_priority b
  wrap32 (prio_a - prio_b)

/-- The function `is_item_in_schema`: linear search of `item` in the `NULL`-terminated
array `items`. -/
def is_item_in_schema : List String → String → Bool
  | [], _ => false
  | x :: items, item => if strcmp x item == 0 then true else is_item_in_schema items item

/-- The function `is_schema`. -/
def is_schema (env : Env) (schema : String) : Bool :=
  match env.schema_source with
  | none => false
  | some (non_relocatable, relocatable) =>
    is_item_in_schema non_relocatable schema || is_item_in_schema relocatable schema

/-- The schema name `_load_file` builds with
`g_strdup_printf ("%s.plugins.%s", DEFAULT_SETTINGS_PREFIX, location)`. -/
def plugin_schema (info : MateSettingsPluginInfo) : String :=
  match mate_settings_plugin_info_get_location info with
  | some location => DEFAULT_SETTINGS_NAMESPACE ++ ".plugins." ++ location
  | none => DEFAULT_SETTINGS_NAMESPACE ++ ".plugins.(null)"

/-- The function `_load_file`. -/
def _load_file (env : Env) (w : World) (filename : String) : World :=
  match mate_settings_plugin_info_new_from_file env filename with
  | none => w
  | some info =>
    match g_slist_find_custom w.manager.priv.plugins info compare_location with
    | some _ => w
    | none =>
      let schema := plugin_schema info
      if is_schema env schema then
        { w with manager :=
            { priv := { w.manager.priv with
                plugins := mate_settings_plugin_info_set_schema env info schema
                             :: w.manager.priv.plugins } } }
      else
        { w with trace :=
            w.trace ++ [Event.warning ("Ignoring unknown module '" ++ schema ++ "'")] }

/-- The body of the `while` loop of `_load_dir` for one directory entry. -/
def _load_dir_entry (env : Env) (path : String) (w : World) (name : String) : World :=
  if !g_str_has_suffix name PLUGIN_EXT then w
  else
    let filename := g_build_filename path name
    if env.g_file_test_is_regular filename then _load_file env w filename else w

/-- The function `_load_dir`. -/
def _load_dir (env : Env) (w : World) (path : String) : World :=
  match env.g_dir_open path with
  | Except.error message => { w with trace := w.trace ++ [Event.warning message] }
  | Except.ok names => names.foldl (_load_dir_entry env path) w

/-- Result of `mate_settings_manager_load`: the world after the call, the returned
`gboolean` and the `GError` message left in `*error`, if any. -/
structure LoadResult where
  world : World
  ret : Bool
  error : Option String
  deriving DecidableEq, Repr

/-- The function `mate_settings_manager_load`. -/
def mate_settings_manager_load (env : Env) (w : World) : LoadResult :=
  if !env.g_module_supported then
    { world := { w with trace := w.trace ++
        [Event.warning "mate-settings-daemon is not able to initialize the plugins."] },
      ret := false,
      error := some "Plugins not supported" }
  else
    let w1 := _load_dir env w (env.MATE_SETTINGS_PLUGINDIR ++ "/")
    let sorted := g_slist_sort w1.manager.priv.plugins compare_priority
    let manager1 : MateSettingsManager := { priv := { w1.manager.priv with plugins := sorted } }
    let r := g_slist_foreach (maybe_activate_plugin env manager1) sorted w1.trace
    { world := { manager := { priv := { manager1.priv with plugins := r.1 } }, trace := r.2 },
      ret := true,
      error := none }

/-- The function `mate_settings_manager_set_init_flag`. -/
def mate_settings_manager_set_init_flag (w : World) (load_init_flag : Int) : World :=
  { w with manager := { priv := { w.manager.priv with load_init_flag := load_init_flag } } }

/-- The function `mate_settings_manager_awake_handler`: the world after the call and
the returned `gboolean`. -/
def mate_settings_manager_awake_handler (env : Env) (w : World) : World × Bool :=
  let w1 := mate_settings_manager_set_init_flag w PLUGIN_LOAD_ALL
  let r := mate_settings_manager_load env w1
  if !r.ret then
    ({ r.world with trace := r.world.trace ++ [Event.return_gerror (r.error.getD "")] }, r.ret)
  else
    ({ r.world with trace := r.world.trace ++ [Event.complete_awake] }, r.ret)

/-- The function `_unload_plugin`: the callback of `_unload_all`.  The `g_object_unref`
gives up the reference the registry holds on the descriptor. -/
def _unload_plugin (env : Env) (info : MateSettingsPluginInfo) (trace : List Event) :
    MateSettingsPluginInfo × List Event :=
  if mate_settings_plugin_info_get_enabled info then
    mate_settings_plugin_info_deactivate env info trace
  else
    (info, trace)

/-- The function `_unload_all`: every descriptor is unloaded, the list is freed and the
registry is `NULL`. -/
def _unload_all (env : Env) (w : World) : World :=
  let r := g_slist_foreach (_unload_plugin env) w.manager.priv.plugins w.trace
  { manager := { priv := { w.manager.priv with plugins := [] } }, trace := r.2 }

/-- The function `mate_settings_manager_start_handler`: the world after the call and
the returned `gboolean`.  The handler takes its manager from `object` with the cast
`MATE_SETTINGS_MANAGER (object)`; here it works on the manager. -/
def mate_settings_manager_start_handler (env : Env) (w : World) : World × Bool :=
  let r := mate_settings_manager_load env w
  if !r.ret then
    ({ r.world with trace := r.world.trace ++ [Event.return_gerror (r.error.getD "")] }, r.ret)
  else
    ({ r.world with trace := r.world.trace ++ [Event.complete_start] }, r.ret)

/-- The function `mate_settings_manager_stop`. -/
def mate_settings_manager_stop (env : Env) (w : World) : World :=
  _unload_all env w

/-- The function `mate_settings_manager_init` on the zero-filled private data of a new
object: the threshold is read when the schema `org.mate.SettingsDaemon.plugins` is
installed, the phase is All. -/
def mate_settings_manager_init (env : Env) : MateSettingsManager :=
  { priv :=
      { plugins := []
        init_load_priority :=
          if is_schema env (DEFAULT_SETTINGS_NAMESPACE ++ ".plugins") then
            env.settings_init_load_priority
          else 0
        load_init_flag := PLUGIN_LOAD_ALL
        replace := false } }

/-- The case `PROP_REPLACE` of `mate_settings_manager_set_property`. -/
def mate_settings_manager_set_replace (manager : MateSettingsManager) (value : Bool) :
    MateSettingsManager :=
  { priv := { manager.priv with replace := value } }

/-- The static variable `manager_object` with the reference count of the object it
points to, and the trace of events observed so far. -/
structure Globals where
  manager_object : Option MateSettingsManager
  ref_count : Nat
  trace : List Event
  deriving DecidableEq, Repr

/-- The function `mate_settings_manager_new`: the globals after the call and the object
the returned pointer points to.  When `manager_object` is `NULL`, `g_object_new` runs
`mate_settings_manager_init`, sets the construct property `replace` and runs
`mate_settings_manager_constructed`, which requests the bus name. -/
def mate_settings_manager_new (env : Env) (replace : Bool) (g : Globals) :
    Globals × MateSettingsManager :=
  match g.manager_object with
  | some manager => ({ g with ref_count := g.ref_count + 1 }, manager)
  | none =>
    let manager := mate_settings_manager_set_replace (mate_settings_manager_init env) replace
    ({ manager_object := some manager,
       ref_count := 1,
       trace := g.trace ++ [Event.bus_own_name manager.priv.replace] },
     manager)

/-! ## The bootstrap sequence of `main.c` -/

/-- The first bootstrap step of `main` (when the daemon is not started by D-Bus): the
phase is set to Eager and the load pass runs. -/
def eager_pass (env : Env) (w : World) : LoadResult :=
  mate_settings_manager_load env (mate_settings_manager_set_init_flag w PLUGIN_LOAD_INIT)

/-- The second bootstrap step of `main`: the phase is set to Deferred and the load pass
runs again. -/
def deferred_pass (env : Env) (w : World) : LoadResult :=
  mate_settings_manager_load env (mate_settings_manager_set_init_flag w PLUGIN_LOAD_DEFER)

/-- The two branches of `on_private_signal` send the same response: the call
`EndSessionResponse (TRUE, NULL)`, and a warning when the call fails. -/
def send_end_session_response (env : Env) (w : World) : World :=
  let trace1 := w.trace ++ [Event.end_session_response true]
  match env.g_dbus_proxy_call_sync trace1 with
  | Except.error message =>
    { w with trace :=
        trace1 ++ [Event.warning ("failed to send session response: " ++ message)] }
  | Except.ok _ => { w with trace := trace1 }

/-- The function `on_private_signal` of `main.c`. -/
def on_private_signal (env : Env) (signal_name : String) (w : World) : World :=
  if strcmp signal_name "QueryEndSession" == 0 then
    send_end_session_response env w
  else if strcmp signal_name "EndSession" == 0 then
    let w1 := send_end_session_response env w
    let w2 := mate_settings_manager_stop env w1
    { w2 with trace := w2.trace ++ [Event.gtk_main_quit] }
  else
    w

/-- One iteration of the main loop: the handler connected to what arrives runs. -/
def dispatch (env : Env) (e : Inbound) (w : World) : World :=
  match e with
  | Inbound.awake => (mate_settings_manager_awake_handler env w).1
  | Inbound.start => (mate_settings_manager_start_handler env w).1
  | Inbound.private_signal signal_name => on_private_signal env signal_name w
  | Inbound.term_signal => { w with trace := w.trace ++ [Event.gtk_main_quit] }
  | Inbound.name_lost => { w with trace := w.trace ++ [Event.gtk_main_quit] }

/-- The call `gtk_main ()`: what arrives is dispatched in order until a handler has
called `gtk_main_quit`.  The result is the world reached and whether the loop has quit;
when nothing that arrives makes the loop quit, the call does not return. -/
def gtk_main (env : Env) : List Inbound → World → Bool × World
  | [], w => (false, w)
  | e :: es, w =>
    let w1 := dispatch env e w
    if (w1.trace.drop w.trace.length).contains Event.gtk_main_quit then (true, w1)
    else gtk_main env es w1

/-- How the process ends: `main` returns a code, `exit` is called with a code, the
process aborts (`g_error`), or the main loop keeps running. -/
inductive ExitStatus where
  | returned (code : Int)
  | exited (code : Int)
  | aborted
  | running
  deriving DecidableEq, Repr

/-- The constant `EXIT_FAILURE`. -/
def EXIT_FAILURE : Int := 1

/-- Result of `main`: how the process ends and what was observed. -/
structure MainResult where
  status : ExitStatus
  trace : List Event
  deriving DecidableEq, Repr

/-- The function `main` of `main.c`.  Locale, debug settings, notification and session
registration calls do not touch the manager and are left out, as is the timer of
`--timed-exit`; of `set_session_over_handler` the pipe of `watch_for_term_signal` is
kept, whose failure is fatal.  The pointer `mate_settings_manager_new` returns is never
`NULL`, so the test `manager == NULL` has no branch here.  The final `g_object_unref` drops the only reference to the manager, so
`mate_settings_manager_dispose` runs `mate_settings_manager_stop`. -/
def main (env : Env) : MainResult :=
  match env.parse_args_failure with
  | some message =>
    { status := ExitStatus.exited EXIT_FAILURE, trace := [Event.warning message] }
  | none =>
    if !env.gtk_init_check then
      { status := ExitStatus.exited EXIT_FAILURE,
        trace := [Event.warning "Unable to initialize GTK+"] }
    else
      let created := mate_settings_manager_new env env.replace
        { manager_object := none, ref_count := 0, trace := [] }
      let w0 : World := { manager := created.2, trace := created.1.trace }
      let w1 :=
        if env.DBUS_STARTER_BUS_TYPE.isNone then
          let res := eager_pass env w0
          if !res.ret then
            { res.world with trace := res.world.trace ++
                [Event.warning ("Unable to start: " ++ res.error.getD "")] }
          else res.world
        else w0
      if !env.pipe then
        { status := ExitStatus.aborted, trace := w1.trace }
      else
        let second :=
          if env.DBUS_STARTER_BUS_TYPE.isNone then
            let res := deferred_pass env w1
            if !res.ret then
              ({ res.world with trace := res.world.trace ++
                  [Event.warning ("Unable to start: " ++ res.error.getD "")] }, false)
            else (res.world, true)
          else (w1, true)
        if second.2 then
          let looped := gtk_main env env.inbound second.1
          if looped.1 then
            { status := ExitStatus.returned 0,
              trace := (mate_settings_manager_stop env looped.2).trace }
          else
            { status := ExitStatus.running, trace := looped.2.trace }
        else
          { status := ExitStatus.returned 0,
            trace := (mate_settings_manager_stop env second.1).trace }

/-! ## Reading the trace and the registry -/

/-- The locations on which activation was attempted, in order: the calls of
`mate_settings_plugin_info_activate` recorded in a trace. -/
def activations : List Event → List String
  | [] => []
  | Event.activate location :: t => location :: activations t
  | _ :: t => activations t

/-- The locations of the registered descriptors, in registry order. -/
def locations (w : World) : List String :=
  w.manager.priv.plugins.map (fun d => d.location)

/-- The descriptor with its activation state cleared: what a load pass never changes. -/
def inactive (info : MateSettingsPluginInfo) : MateSettingsPluginInfo :=
  { info with active := false }

/-- The descriptors a load pass is to activate, in the words of the spec: the enabled
ones, all of them in phase All, those of priority at most the threshold in phase Eager,
those of priority above the threshold in phase Deferred. -/
def eligible (load_init_flag init_load_priority : Int) (info : MateSettingsPluginInfo) :
    Bool :=
  info.enabled &&
    (decide (load_init_flag = PLUGIN_LOAD_ALL) ||
     (decide (load_init_flag = PLUGIN_LOAD_INIT) &&
        decide (info.priority ≤ init_load_priority)) ||
     (decide (load_init_flag = PLUGIN_LOAD_DEFER) &&
        decide (info.priority > init_load_priority)))

/-- No two priorities of the list are `2^31` or more apart: the subtraction of
`compare_priority` does not overflow on this list. -/
def NoOverflow (l : List MateSettingsPluginInfo) : Prop :=
  ∀ a ∈ l, ∀ b ∈ l,
    -2147483648 ≤ a.priority - b.priority ∧ a.priority - b.priority < 2147483648

instance (l : List MateSettingsPluginInfo) : Decidable (NoOverflow l) := by
  unfold NoOverflow; infer_instance

/-- The Activated events of a trace, in order, by plugin name. -/
def activated : List Event → List String
  | [] => []
  | Event.plugin_activated name :: t => name :: activated t
  | _ :: t => activated t

/-- The locations on which deactivation was called, in order: the calls of
`mate_settings_plugin_info_deactivate` recorded in a trace. -/
def deactivations : List Event → List String
  | [] => []
  | Event.deactivate location :: t => location :: deactivations t
  | _ :: t => deactivations t

/-- The Deactivated events of a trace, in order, by plugin name. -/
def deactivated : List Event → List String
  | [] => []
  | Event.plugin_deactivated name :: t => name :: deactivated t
  | _ :: t => deactivated t

/-- The `EndSessionResponse` calls of a trace, in order, by their `isOkay`. -/
def responses : List Event → List Bool
  | [] => []
  | Event.end_session_response is_okay :: t => is_okay :: responses t
  | _ :: t => responses t

/-- The number of `gtk_main_quit` calls of a trace. -/
def quits : List Event → Nat
  | [] => 0
  | Event.gtk_main_quit :: t => quits t + 1
  | _ :: t => quits t

/-! ## Example environments -/

/-- A manager in phase Eager with threshold 40. -/
def example_manager : MateSettingsManager :=
  { priv := { plugins := [], init_load_priority := 40,
              load_init_flag := PLUGIN_LOAD_INIT, replace := false } }

/-- The world at start-up: no descriptor registered, nothing observed. -/
def example_world : World := { manager := example_manager, trace := [] }

/-- The world at start-up in phase All: no descriptor registered, nothing observed. -/
def all_world : World :=
  { manager := { priv := { plugins := [], init_load_priority := 40,
                           load_init_flag := PLUGIN_LOAD_ALL, replace := false } },
    trace := [] }

/-- An environment in which every plugin activation succeeds; the plugin directory
holds the manifests of `a` (priority 10), `b` (priority 50) and `c` (priority 90,
disabled), a manifest `d` without an installed schema, a second manifest for the
location `a`, a manifest that does not parse and a file that is no manifest.  The
daemon is started from the command line, and the main loop receives an `Awake` call,
then the signals `QueryEndSession` and `EndSession`. -/
def example_env : Env :=
  { g_module_supported := true
    MATE_SETTINGS_PLUGINDIR := "/p"
    g_dir_open := fun path =>
      if path = "/p/" then
        Except.ok ["a.mate-settings-plugin", "README", "b.mate-settings-plugin",
                   "c.mate-settings-plugin", "d.mate-settings-plugin",
                   "a2.mate-settings-plugin", "x.mate-settings-plugin"]
      else Except.error "No such file or directory"
    g_file_test_is_regular := fun _ => true
    manifest := fun filename =>
      if filename = "/p/a.mate-settings-plugin" then some { location := "a", priority := 100 }
      else if filename = "/p/b.mate-settings-plugin" then some { location := "b", priority := 100 }
      else if filename = "/p/c.mate-settings-plugin" then some { location := "c", priority := 100 }
      else if filename = "/p/d.mate-settings-plugin" then some { location := "d", priority := 100 }
      else if filename = "/p/a2.mate-settings-plugin" then some { location := "a", priority := 7 }
      else none
    schema_source := some (["org.mate.SettingsDaemon.plugins",
                            "org.mate.SettingsDaemon.plugins.a",
                            "org.mate.SettingsDaemon.plugins.b"],
                           ["org.mate.SettingsDaemon.plugins.c"])
    settings_enabled := fun schema => schema != "org.mate.SettingsDaemon.plugins.c"
    settings_priority := fun schema =>
      if schema = "org.mate.SettingsDaemon.plugins.a" then 10
      else if schema = "org.mate.SettingsDaemon.plugins.b" then 50
      else 90
    plugin_activate := fun _ _ => true
    plugin_deactivate := fun _ _ => true
    settings_init_load_priority := 40
    g_dbus_proxy_call_sync := fun _ => Except.ok ()
    parse_args_failure := none
    gtk_init_check := true
    replace := false
    DBUS_STARTER_BUS_TYPE := none
    pipe := true
    inbound := [Inbound.awake, Inbound.private_signal "QueryEndSession",
                Inbound.private_signal "EndSession"] }

/-- An environment like `example_env` without module support. -/
def unsupported_env : Env :=
  { example_env with g_module_supported := false }

/-- An environment like `example_env` whose plugin directory cannot be opened. -/
def closed_env : Env :=
  { example_env with g_dir_open := fun _ => Except.error "No such file or directory" }

/-- An environment like `example_env` whose plugin directory holds, in this order, the
manifests of the enabled plugins `a` and `b`, both of priority 100. -/
def tie_env : Env :=
  { example_env with
    g_dir_open := fun path =>
      if path = "/p/" then Except.ok ["a.mate-settings-plugin", "b.mate-settings-plugin"]
      else Except.error "No such file or directory"
    settings_enabled := fun _ => true
    settings_priority := fun _ => 100 }

/-- An environment like `example_env` whose plugin directory holds, in this order, the
manifests of the enabled plugins `lo` (priority `-1`) and `hi` (priority `2^31 - 1`). -/
def overflow_env : Env :=
  { example_env with
    g_dir_open := fun path =>
      if path = "/p/" then Except.ok ["lo.mate-settings-plugin", "hi.mate-settings-plugin"]
      else Except.error "No such file or directory"
    manifest := fun filename =>
      if filename = "/p/lo.mate-settings-plugin" then some { location := "lo", priority := 100 }
      else if filename = "/p/hi.mate-settings-plugin" then some { location := "hi", priority := 100 }
      else none
    schema_source := some (["org.mate.SettingsDaemon.plugins.lo",
                            "org.mate.SettingsDaemon.plugins.hi"], [])
    settings_enabled := fun _ => true
    settings_priority := fun schema =>
      if schema = "org.mate.SettingsDaemon.plugins.lo" then -1 else 2147483647 }

/-- An environment like `example_env` whose plugin directory holds, in this order, the
manifests of the enabled plugins `p3` (priority `-2^31`), `p2` (priority `-1`), `p1`
(priority `2^31 - 1`) and `p0` (priority `-1`). -/
def rescan_env : Env :=
  { example_env with
    g_dir_open := fun path =>
      if path = "/p/" then
        Except.ok ["p3.mate-settings-plugin", "p2.mate-settings-plugin",
                   "p1.mate-settings-plugin", "p0.mate-settings-plugin"]
      else Except.error "No such file or directory"
    manifest := fun filename =>
      if filename = "/p/p0.mate-settings-plugin" then some { location := "p0", priority := 100 }
      else if filename = "/p/p1.mate-settings-plugin" then some { location := "p1", priority := 100 }
      else if filename = "/p/p2.mate-settings-plugin" then some { location := "p2", priority := 100 }
      else if filename = "/p/p3.mate-settings-plugin" then some { location := "p3", priority := 100 }
      else none
    schema_source := some (["org.mate.SettingsDaemon.plugins.p0",
                            "org.mate.SettingsDaemon.plugins.p1",
                            "org.mate.SettingsDaemon.plugins.p2",
                            "org.mate.SettingsDaemon.plugins.p3"], [])
    settings_enabled := fun _ => true
    settings_priority := fun schema =>
      if schema = "org.mate.SettingsDaemon.plugins.p1" then 2147483647
      else if schema = "org.mate.SettingsDaemon.plugins.p3" then -2147483648
      else -1 }

/-- A world whose registry holds one Active descriptor that is disabled. -/
def disabled_active_world : World :=
  { manager := { priv := { plugins := [{ location := "a", priority := 10,
                                         enabled := false, active := true }],
                           init_load_priority := 40,
                           load_init_flag := PLUGIN_LOAD_ALL, replace := false } },
    trace := [] }

/-- A world whose registry holds the Active, enabled descriptor `a`, the Inactive,
enabled descriptor `b` and the Inactive, disabled descriptor `c`. -/
def running_world : World :=
  { manager := { priv := { plugins := [{ location := "a", priority := 10,
                                         enabled := true, active := true },
                                       { location := "b", priority := 50,
                                         enabled := true, active := false },
                                       { location := "c", priority := 90,
                                         enabled := false, active := false }],
                           init_load_priority := 40,
                           load_init_flag := PLUGIN_LOAD_ALL, replace := false } },
    trace := [] }

/-- The globals before the first construction: `manager_object` is `NULL`. -/
def initial_globals : Globals :=
  { manager_object := none, ref_count := 0, trace := [] }

/-- An environment like `example_env` in which the `EndSessionResponse` call fails. -/
def no_session_env : Env :=
  { example_env with
    g_dbus_proxy_call_sync := fun _ => Except.error "The name is not activatable" }

/-- The worked example of the spec: the plugin directory holds the manifests of `a`
(priority 10), `b` (priority 50) and `c` (priority 90, disabled); every plugin
activation succeeds. -/
def worked_env : Env :=
  { example_env with
    g_dir_open := fun path =>
      if path = "/p/" then
        Except.ok ["a.mate-settings-plugin", "b.mate-settings-plugin",
                   "c.mate-settings-plugin"]
      else Except.error "No such file or directory" }

/-- The worked example of the spec when every plugin activation fails. -/
def failing_env : Env :=
  { worked_env with plugin_activate := fun _ _ => false }

/-- An environment like `example_env` in which the process is started by D-Bus and the
main loop receives a `Start` call, then the termination signal. -/
def dbus_started_env : Env :=
  { example_env with
    DBUS_STARTER_BUS_TYPE := some "session"
    inbound := [Inbound.start, Inbound.term_signal] }

/-! # Theorems -/

/-! ## The sort -/

theorem g_slist_sort_merge_nil_right {α : Type} (cmp : α → α → Int) (l : List α) :
    g_slist_sort_merge cmp l [] = l := by
  cases l <;> simp [g_slist_sort_merge, g_slist_sort_merge_aux]

theorem g_slist_sort_merge_cons_cons {α : Type} (cmp : α → α → Int) (x y : α)
    (xs ys : List α) :
    g_slist_sort_merge cmp (x :: xs) (y :: ys) =
      if cmp x y ≤ 0 then x :: g_slist_sort_merge cmp xs (y :: ys)
      else y :: g_slist_sort_merge cmp (x :: xs) ys := by
  simp [g_slist_sort_merge, g_slist_sort_merge_aux]

theorem g_slist_sort_merge_perm {α : Type} (cmp : α → α → Int) (l1 l2 : List α) :
    (g_slist_sort_merge cmp l1 l2).Perm (l1 ++ l2) := by
  induction l1 generalizing l2 with
  | nil => simp [g_slist_sort_merge]
  | cons x xs ih1 =>
    induction l2 with
    | nil => simp [g_slist_sort_merge_nil_right]
    | cons y ys ih2 =>
      rw [g_slist_sort_merge_cons_cons]
      split
      · exact (ih1 (y :: ys)).cons x
      · exact (ih2.cons y).trans (List.perm_middle.symm)

theorem g_slist_sort_real_perm {α : Type} (cmp : α → α → Int) (fuel : Nat) (l : List α) :
    (g_slist_sort_real cmp fuel l).Perm l := by
  induction fuel generalizing l with
  | zero => simp [g_slist_sort_real]
  | succ n ih =>
    match l with
    | [] => simp [g_slist_sort_real]
    | [x] => simp [g_slist_sort_real]
    | x :: y :: rest =>
      simp only [g_slist_sort_real]
      refine (g_slist_sort_merge_perm cmp _ _).trans ?_
      refine ((ih _).append (ih _)).trans ?_
      rw [List.take_append_drop]

theorem g_slist_sort_perm {α : Type} (cmp : α → α → Int) (l : List α) :
    (g_slist_sort l cmp).Perm l :=
  g_slist_sort_real_perm cmp l.length l

/-- The recursion bound of `g_slist_sort` is never reached: any two bounds that are at
least the length of the list give the same result. -/
theorem g_slist_sort_real_fuel {α : Type} (cmp : α → α → Int) (n m : Nat) (l : List α)
    (hn : l.length ≤ n) (hm : l.length ≤ m) :
    g_slist_sort_real cmp n l = g_slist_sort_real cmp m l := by
  induction n generalizing m l with
  | zero =>
    have : l = [] := List.length_eq_zero.1 (Nat.le_zero.1 hn)
    subst this
    cases m <;> rfl
  | succ n ih =>
    cases m with
    | zero =>
      have : l = [] := List.length_eq_zero.1 (Nat.le_zero.1 hm)
      subst this
      rfl
    | succ m =>
      match l, hn, hm with
      | [], _, _ => rfl
      | [x], _, _ => rfl
      | x :: y :: rest, hn, hm =>
        simp only [g_slist_sort_real]
        generalize hl : x :: y :: rest = l at hn hm ⊢
        have hlen : l.length = rest.length + 2 := by rw [← hl]; simp
        have hT : (l.take (l.length / 2)).length ≤ n := by rw [List.length_take]; omega
        have hD : (l.drop (l.length / 2)).length ≤ n := by rw [List.length_drop]; omega
        have hT' : (l.take (l.length / 2)).length ≤ m := by rw [List.length_take]; omega
        have hD' : (l.drop (l.length / 2)).length ≤ m := by rw [List.length_drop]; omega
        rw [ih m _ hT hT', ih m _ hD hD']

theorem g_slist_sort_merge_mem {α : Type} (cmp : α → α → Int) (l1 l2 : List α) (a : α) :
    a ∈ g_slist_sort_merge cmp l1 l2 ↔ a ∈ l1 ∨ a ∈ l2 := by
  rw [(g_slist_sort_merge_perm cmp l1 l2).mem_iff, List.mem_append]

/-- Merging two lists that ascend along a key `f` gives a list that ascends along `f`,
when `cmp` decides `f a ≤ f b` on the elements at hand. -/
theorem g_slist_sort_merge_sorted {α : Type} (cmp : α → α → Int) (f : α → Int)
    (l1 l2 : List α)
    (hk : ∀ a ∈ l1, ∀ b ∈ l2, (cmp a b ≤ 0 ↔ f a ≤ f b))
    (h1 : l1.Pairwise (fun a b => f a ≤ f b)) (h2 : l2.Pairwise (fun a b => f a ≤ f b)) :
    (g_slist_sort_merge cmp l1 l2).Pairwise (fun a b => f a ≤ f b) := by
  induction l1 generalizing l2 with
  | nil => simpa [g_slist_sort_merge] using h2
  | cons x xs ih1 =>
    induction l2 with
    | nil => simpa [g_slist_sort_merge_nil_right] using h1
    | cons y ys ih2 =>
      rw [g_slist_sort_merge_cons_cons]
      have hxy := hk x (List.mem_cons_self _ _) y (List.mem_cons_self _ _)
      rw [List.pairwise_cons] at h1 h2
      split
      · rename_i h
        have hle : f x ≤ f y := hxy.1 h
        refine List.Pairwise.cons ?_ ?_
        · intro z hz
          rw [g_slist_sort_merge_mem] at hz
          rcases hz with hz | hz
          · exact h1.1 z hz
          · rcases List.mem_cons.1 hz with rfl | hz
            · exact hle
            · exact le_trans hle (h2.1 z hz)
        · exact ih1 (y :: ys)
            (fun a ha b hb => hk a (List.mem_cons_of_mem _ ha) b hb) h1.2
            (List.pairwise_cons.2 h2)
      · rename_i h
        have hlt : f y ≤ f x := by
          have : ¬ f x ≤ f y := fun hc => h (hxy.2 hc)
          omega
        refine List.Pairwise.cons ?_ ?_
        · intro z hz
          rw [g_slist_sort_merge_mem] at hz
          rcases hz with hz | hz
          · rcases List.mem_cons.1 hz with rfl | hz
            · exact hlt
            · exact le_trans hlt (h1.1 z hz)
          · exact h2.1 z hz
        · exact ih2
            (fun a ha b hb => hk a ha b (List.mem_cons_of_mem _ hb)) h2.2

/-- Merging keeps, for every key value `p`, the elements of key `p` of the first list
before those of the second list, each group in its order. -/
theorem g_slist_sort_merge_filter {α : Type} (cmp : α → α → Int) (f : α → Int) (p : Int)
    (l1 l2 : List α)
    (hk : ∀ a ∈ l1, ∀ b ∈ l2, (cmp a b ≤ 0 ↔ f a ≤ f b))
    (h1 : l1.Pairwise (fun a b => f a ≤ f b)) :
    (g_slist_sort_merge cmp l1 l2).filter (fun a => decide (f a = p)) =
      l1.filter (fun a => decide (f a = p)) ++ l2.filter (fun a => decide (f a = p)) := by
  induction l1 generalizing l2 with
  | nil => simp [g_slist_sort_merge]
  | cons x xs ih1 =>
    induction l2 with
    | nil => simp [g_slist_sort_merge_nil_right]
    | cons y ys ih2 =>
      rw [g_slist_sort_merge_cons_cons]
      have hxy := hk x (List.mem_cons_self _ _) y (List.mem_cons_self _ _)
      have h1c := List.pairwise_cons.1 h1
      split
      · rw [List.filter_cons, ih1 (y :: ys)
            (fun a ha b hb => hk a (List.mem_cons_of_mem _ ha) b hb) h1c.2]
        by_cases hx : f x = p <;> simp [hx]
      · rename_i h
        have hlt : f y < f x := by
          have : ¬ f x ≤ f y := fun hc => h (hxy.2 hc)
          omega
        rw [List.filter_cons, ih2 (fun a ha b hb => hk a ha b (List.mem_cons_of_mem _ hb))]
        by_cases hy : f y = p
        · have hnone : (x :: xs).filter (fun a => decide (f a = p)) = [] := by
            rw [List.filter_eq_nil_iff]
            intro a ha
            have : f x ≤ f a := by
              rcases List.mem_cons.1 ha with rfl | ha
              · exact le_refl _
              · exact h1c.1 a ha
            simp only [decide_eq_true_eq]
            omega
          simp [hy, hnone]
        · simp [hy]

/-- With enough fuel, and a comparison that decides `f a ≤ f b` on the elements of the
list, the sort returns a list ascending along `f` in which the elements of each key
value keep their order. -/
theorem g_slist_sort_real_sorted_stable {α : Type} (cmp : α → α → Int) (f : α → Int)
    (fuel : Nat) (l : List α) (hfuel : l.length ≤ fuel)
    (hk : ∀ a ∈ l, ∀ b ∈ l, (cmp a b ≤ 0 ↔ f a ≤ f b)) :
    (g_slist_sort_real cmp fuel l).Pairwise (fun a b => f a ≤ f b) ∧
    ∀ p : Int, (g_slist_sort_real cmp fuel l).filter (fun a => decide (f a = p)) =
      l.filter (fun a => decide (f a = p)) := by
  induction fuel generalizing l with
  | zero =>
    have : l = [] := List.length_eq_zero.1 (Nat.le_zero.1 hfuel)
    subst this
    simp [g_slist_sort_real]
  | succ n ih =>
    match l, hfuel, hk with
    | [], _, _ => simp [g_slist_sort_real]
    | [x], _, _ => simp [g_slist_sort_real]
    | x :: y :: rest, hfuel, hk =>
      simp only [g_slist_sort_real]
      generalize hl : x :: y :: rest = l at hk hfuel ⊢
      have hlen : l.length = rest.length + 2 := by rw [← hl]; simp
      have hT : (l.take (l.length / 2)).length ≤ n := by
        rw [List.length_take]; omega
      have hD : (l.drop (l.length / 2)).length ≤ n := by
        rw [List.length_drop]; omega
      have hkT : ∀ a ∈ l.take (l.length / 2), ∀ b ∈ l.take (l.length / 2),
          (cmp a b ≤ 0 ↔ f a ≤ f b) :=
        fun a ha b hb => hk a (List.mem_of_mem_take ha) b (List.mem_of_mem_take hb)
      have hkD : ∀ a ∈ l.drop (l.length / 2), ∀ b ∈ l.drop (l.length / 2),
          (cmp a b ≤ 0 ↔ f a ≤ f b) :=
        fun a ha b hb => hk a (List.mem_of_mem_drop ha) b (List.mem_of_mem_drop hb)
      have hk12 : ∀ a ∈ g_slist_sort_real cmp n (l.take (l.length / 2)),
          ∀ b ∈ g_slist_sort_real cmp n (l.drop (l.length / 2)),
          (cmp a b ≤ 0 ↔ f a ≤ f b) := by
        intro a ha b hb
        rw [(g_slist_sort_real_perm cmp n _).mem_iff] at ha hb
        exact hk a (List.mem_of_mem_take ha) b (List.mem_of_mem_drop hb)
      obtain ⟨sT, fT⟩ := ih _ hT hkT
      obtain ⟨sD, fD⟩ := ih _ hD hkD
      refine ⟨g_slist_sort_merge_sorted cmp f _ _ hk12 sT sD, ?_⟩
      intro p
      rw [g_slist_sort_merge_filter cmp f p _ _ hk12 sT, fT p, fD p, ← List.filter_append,
        List.take_append_drop]

/-- The comparison `compare_priority`, on two descriptors whose priorities differ by
less than `2^31`, has the sign of the difference of the priorities. -/
theorem compare_priority_le_zero_iff (a b : MateSettingsPluginInfo)
    (h : -2147483648 ≤ a.priority - b.priority ∧ a.priority - b.priority < 2147483648) :
    compare_priority a b ≤ 0 ↔ a.priority ≤ b.priority := by
  unfold compare_priority wrap32 mate_settings_plugin_info_get_priority
  simp only
  omega

/-- Sorting by `compare_priority` a list on which the subtraction does not overflow
gives the descriptors in ascending priority, equal priorities in their former order. -/
theorem g_slist_sort_compare_priority (l : List MateSettingsPluginInfo) (h : NoOverflow l) :
    (g_slist_sort l compare_priority).Pairwise (fun a b => a.priority ≤ b.priority) ∧
    ∀ p : Int, (g_slist_sort l compare_priority).filter (fun a => decide (a.priority = p)) =
      l.filter (fun a => decide (a.priority = p)) :=
  g_slist_sort_real_sorted_stable compare_priority (fun a => a.priority) l.length l
    (le_refl _) (fun a ha b hb => compare_priority_le_zero_iff a b (h a ha b hb))

/-! ## The trace -/

theorem activations_append (t1 t2 : List Event) :
    activations (t1 ++ t2) = activations t1 ++ activations t2 := by
  induction t1 with
  | nil => rfl
  | cons e t ih => cases e <;> simp [activations, ih]

/-- The call of `mate_settings_plugin_info_activate` is one activation attempt on the
descriptor; it changes at most the activation state. -/
theorem mate_settings_plugin_info_activate_spec (env : Env) (info : MateSettingsPluginInfo)
    (trace : List Event) :
    activations (mate_settings_plugin_info_activate env info trace).2.2 =
      activations trace ++ [info.location] ∧
    (mate_settings_plugin_info_activate env info trace).2.1.location = info.location ∧
    (mate_settings_plugin_info_activate env info trace).2.1.priority = info.priority ∧
    (mate_settings_plugin_info_activate env info trace).2.1.enabled = info.enabled := by
  unfold mate_settings_plugin_info_activate
  simp only
  split
  · simp [activations_append, activations]
  · split <;> simp [activations_append, activations]

theorem maybe_activate_plugin_eq (env : Env) (manager : MateSettingsManager)
    (info : MateSettingsPluginInfo) (trace : List Event) :
    maybe_activate_plugin env manager info trace =
      if eligible manager.priv.load_init_flag manager.priv.init_load_priority info then
        ((mate_settings_plugin_info_activate env info trace).2.1,
         (mate_settings_plugin_info_activate env info trace).2.2)
      else (info, trace) := by
  unfold maybe_activate_plugin eligible mate_settings_plugin_info_get_enabled
    mate_settings_plugin_info_get_priority
  cases info.enabled <;> simp

/-- One call of `maybe_activate_plugin`: it attempts activation exactly on an eligible
descriptor, and changes at most the activation state. -/
theorem maybe_activate_plugin_spec (env : Env) (manager : MateSettingsManager)
    (info : MateSettingsPluginInfo) (trace : List Event) :
    activations (maybe_activate_plugin env manager info trace).2 =
      activations trace ++
        (if eligible manager.priv.load_init_flag manager.priv.init_load_priority info
         then [info.location] else []) ∧
    (maybe_activate_plugin env manager info trace).1.location = info.location ∧
    (maybe_activate_plugin env manager info trace).1.priority = info.priority ∧
    (maybe_activate_plugin env manager info trace).1.enabled = info.enabled := by
  rw [maybe_activate_plugin_eq]
  have h := mate_settings_plugin_info_activate_spec env info trace
  split
  · exact h
  · simp

/-- C1: one call of `maybe_activate_plugin` attempts activation of the descriptor if and
only if the descriptor is enabled and the phase is All, or the phase is Eager and the
priority is at most the threshold, or the phase is Deferred and the priority is above
the threshold; otherwise, and so for every disabled descriptor in every phase, it
leaves the descriptor and the trace as they are. -/
theorem maybe_activate_plugin_attempts_iff (env : Env) (manager : MateSettingsManager)
    (info : MateSettingsPluginInfo) (trace : List Event) :
    (activations (maybe_activate_plugin env manager info trace).2 =
        activations trace ++ [info.location] ↔
      (info.enabled = true ∧
        (manager.priv.load_init_flag = PLUGIN_LOAD_ALL ∨
         (manager.priv.load_init_flag = PLUGIN_LOAD_INIT ∧
            info.priority ≤ manager.priv.init_load_priority) ∨
         (manager.priv.load_init_flag = PLUGIN_LOAD_DEFER ∧
            info.priority > manager.priv.init_load_priority)))) ∧
    (¬ (info.enabled = true ∧
        (manager.priv.load_init_flag = PLUGIN_LOAD_ALL ∨
         (manager.priv.load_init_flag = PLUGIN_LOAD_INIT ∧
            info.priority ≤ manager.priv.init_load_priority) ∨
         (manager.priv.load_init_flag = PLUGIN_LOAD_DEFER ∧
            info.priority > manager.priv.init_load_priority))) →
      maybe_activate_plugin env manager info trace = (info, trace)) ∧
    (info.enabled = false →
      maybe_activate_plugin env manager info trace = (info, trace)) := by
  have hE : eligible manager.priv.load_init_flag manager.priv.init_load_priority info = true ↔
      (info.enabled = true ∧
        (manager.priv.load_init_flag = PLUGIN_LOAD_ALL ∨
         (manager.priv.load_init_flag = PLUGIN_LOAD_INIT ∧
            info.priority ≤ manager.priv.init_load_priority) ∨
         (manager.priv.load_init_flag = PLUGIN_LOAD_DEFER ∧
            info.priority > manager.priv.init_load_priority))) := by
    simp [eligible, or_assoc]
  have hs := (maybe_activate_plugin_spec env manager info trace).1
  refine ⟨?_, ?_, ?_⟩
  · rw [hs, ← hE]
    by_cases h : eligible manager.priv.load_init_flag manager.priv.init_load_priority info
    · simp [h]
    · simp [h]
  · intro h
    rw [← hE] at h
    rw [maybe_activate_plugin_eq, if_neg h]
  · intro h
    rw [maybe_activate_plugin_eq]
    simp [eligible, h]

/-- Witness of C1: a disabled descriptor of priority 10 in phase Eager with threshold
40 is not touched. -/
theorem maybe_activate_plugin_attempts_iff_witness :
    maybe_activate_plugin example_env example_manager
        { location := "c", priority := 10, enabled := false, active := false } [] =
      ({ location := "c", priority := 10, enabled := false, active := false }, []) :=
  (maybe_activate_plugin_attempts_iff example_env example_manager
    { location := "c", priority := 10, enabled := false, active := false } []).2.2 rfl

/-! ## The registry: `_load_file` and `_load_dir` -/

theorem strcmp_chars_eq_zero_iff (a b : List Char) : strcmp_chars a b = 0 ↔ a = b := by
  induction a generalizing b with
  | nil => cases b <;> simp [strcmp_chars]
  | cons x xs ih =>
    cases b with
    | nil => simp [strcmp_chars]
    | cons y ys =>
      unfold strcmp_chars
      by_cases h : x = y
      · simp [h, ih]
      · by_cases h2 : x.toNat < y.toNat <;> simp [h, h2]

theorem strcmp_eq_zero_iff (a b : String) : strcmp a b = 0 ↔ a = b := by
  unfold strcmp
  rw [strcmp_chars_eq_zero_iff]
  exact ⟨fun h => String.ext h, fun h => by rw [h]⟩

theorem compare_location_eq_zero_iff (a b : MateSettingsPluginInfo) :
    compare_location a b = 0 ↔ a.location = b.location := by
  simp [compare_location, mate_settings_plugin_info_get_location, strcmp_eq_zero_iff]

/-- The search of `_load_file` finds a descriptor exactly when the location is
registered. -/
theorem g_slist_find_custom_compare_location (l : List MateSettingsPluginInfo)
    (info : MateSettingsPluginInfo) :
    g_slist_find_custom l info compare_location = none ↔
      info.location ∉ l.map (fun d => d.location) := by
  unfold g_slist_find_custom
  rw [List.find?_eq_none]
  simp only [beq_iff_eq, compare_location_eq_zero_iff, List.mem_map, not_exists, not_and]

theorem is_item_in_schema_iff (items : List String) (item : String) :
    is_item_in_schema items item = true ↔ item ∈ items := by
  induction items with
  | nil => simp [is_item_in_schema]
  | cons x xs ih =>
    unfold is_item_in_schema
    by_cases h : x = item
    · simp [h, (strcmp_eq_zero_iff item item).2 rfl]
    · have h0 : ¬ strcmp x item = 0 := fun hc => h ((strcmp_eq_zero_iff x item).1 hc)
      have h1 : ¬ item = x := fun hc => h hc.symm
      simp [h0, h1, ih]

/-- The three outcomes of `_load_file`: the file does not parse or its location is
registered already (nothing changes); the schema is not installed (a warning, the
manager does not change); otherwise the new descriptor is put at the head of the list. -/
theorem _load_file_eq (env : Env) (w : World) (filename : String) :
    _load_file env w filename =
      match mate_settings_plugin_info_new_from_file env filename with
      | none => w
      | some info =>
        if info.location ∈ locations w then w
        else if is_schema env (plugin_schema info) then
          { w with manager :=
              { priv := { w.manager.priv with
                  plugins := mate_settings_plugin_info_set_schema env info (plugin_schema info)
                               :: w.manager.priv.plugins } } }
        else
          { w with trace := w.trace ++
              [Event.warning ("Ignoring unknown module '" ++ plugin_schema info ++ "'")] } := by
  unfold _load_file
  cases hinfo : mate_settings_plugin_info_new_from_file env filename with
  | none => rfl
  | some info =>
    simp only
    by_cases hmem : info.location ∈ locations w
    · rw [if_pos hmem]
      have : g_slist_find_custom w.manager.priv.plugins info compare_location ≠ none := by
        rw [Ne, g_slist_find_custom_compare_location]
        exact fun hc => hc hmem
      cases hf : g_slist_find_custom w.manager.priv.plugins info compare_location with
      | none => exact absurd hf this
      | some _ => rfl
    · rw [if_neg hmem]
      have : g_slist_find_custom w.manager.priv.plugins info compare_location = none :=
        (g_slist_find_custom_compare_location _ _).2 hmem
      rw [this]

theorem set_schema_location (env : Env) (info : MateSettingsPluginInfo) (schema : String) :
    (mate_settings_plugin_info_set_schema env info schema).location = info.location := rfl

/-- What `_load_file` never does: it attempts no activation, it changes neither the phase
nor the threshold, and it removes no location from the registry. -/
theorem _load_file_frame (env : Env) (w : World) (filename : String) :
    activations (_load_file env w filename).trace = activations w.trace ∧
    (_load_file env w filename).manager.priv.load_init_flag = w.manager.priv.load_init_flag ∧
    (_load_file env w filename).manager.priv.init_load_priority =
      w.manager.priv.init_load_priority ∧
    (∀ loc ∈ locations w, loc ∈ locations (_load_file env w filename)) := by
  rw [_load_file_eq]
  cases mate_settings_plugin_info_new_from_file env filename with
  | none => simp
  | some info =>
    simp only
    split
    · simp
    · split
      · refine ⟨rfl, rfl, rfl, ?_⟩
        intro loc hloc
        simp only [locations, List.map_cons, List.mem_cons]
        exact Or.inr hloc
      · simp [activations_append, activations, locations]

/-- Loading a file into a registry that holds every location the file gave some registry
before leaves the manager as it is. -/
theorem _load_file_settled (env : Env) (w w' : World) (filename : String)
    (h : ∀ loc ∈ locations (_load_file env w filename), loc ∈ locations w') :
    (_load_file env w' filename).manager = w'.manager := by
  rw [_load_file_eq] at h ⊢
  cases hinfo : mate_settings_plugin_info_new_from_file env filename with
  | none => rfl
  | some info =>
    rw [hinfo] at h
    simp only at h ⊢
    by_cases hs : is_schema env (plugin_schema info) = true
    · have hin : info.location ∈ locations w' := by
        by_cases hmem : info.location ∈ locations w
        · rw [if_pos hmem] at h
          exact h _ hmem
        · rw [if_neg hmem, if_pos hs] at h
          apply h
          simp [locations, set_schema_location]
      rw [if_pos hin]
    · split
      · rfl
      · simp [hs]

theorem _load_dir_entry_frame (env : Env) (path : String) (w : World) (name : String) :
    activations (_load_dir_entry env path w name).trace = activations w.trace ∧
    (_load_dir_entry env path w name).manager.priv.load_init_flag =
      w.manager.priv.load_init_flag ∧
    (_load_dir_entry env path w name).manager.priv.init_load_priority =
      w.manager.priv.init_load_priority ∧
    (∀ loc ∈ locations w, loc ∈ locations (_load_dir_entry env path w name)) := by
  unfold _load_dir_entry
  split
  · simp
  · simp only
    split
    · exact _load_file_frame env w _
    · simp

theorem _load_dir_entry_settled (env : Env) (path : String) (w w' : World) (name : String)
    (h : ∀ loc ∈ locations (_load_dir_entry env path w name), loc ∈ locations w') :
    (_load_dir_entry env path w' name).manager = w'.manager := by
  unfold _load_dir_entry at h ⊢
  split
  · rfl
  · rename_i hsuf
    rw [if_neg hsuf] at h
    simp only at h ⊢
    split
    · rename_i hreg
      rw [if_pos hreg] at h
      exact _load_file_settled env w w' _ h
    · rfl

theorem _load_dir_fold_frame (env : Env) (path : String) (names : List String) (w : World) :
    activations (names.foldl (_load_dir_entry env path) w).trace = activations w.trace ∧
    (names.foldl (_load_dir_entry env path) w).manager.priv.load_init_flag =
      w.manager.priv.load_init_flag ∧
    (names.foldl (_load_dir_entry env path) w).manager.priv.init_load_priority =
      w.manager.priv.init_load_priority ∧
    (∀ loc ∈ locations w, loc ∈ locations (names.foldl (_load_dir_entry env path) w)) := by
  induction names generalizing w with
  | nil => simp
  | cons n ns ih =>
    simp only [List.foldl_cons]
    obtain ⟨a1, a2, a3, a4⟩ := ih (_load_dir_entry env path w n)
    obtain ⟨b1, b2, b3, b4⟩ := _load_dir_entry_frame env path w n
    exact ⟨a1.trans b1, a2.trans b2, a3.trans b3, fun loc hloc => a4 loc (b4 loc hloc)⟩

theorem _load_dir_fold_settled (env : Env) (path : String) (names : List String)
    (w w' : World)
    (h : ∀ loc ∈ locations (names.foldl (_load_dir_entry env path) w), loc ∈ locations w') :
    (names.foldl (_load_dir_entry env path) w').manager = w'.manager := by
  induction names generalizing w w' with
  | nil => rfl
  | cons n ns ih =>
    simp only [List.foldl_cons] at h ⊢
    have hmono := (_load_dir_fold_frame env path ns (_load_dir_entry env path w n)).2.2.2
    have h1 : (_load_dir_entry env path w' n).manager = w'.manager :=
      _load_dir_entry_settled env path w w' n (fun loc hloc => h loc (hmono loc hloc))
    have h2 := ih (_load_dir_entry env path w n) (_load_dir_entry env path w' n)
      (by
        intro loc hloc
        have := h loc hloc
        simpa [locations, h1] using this)
    rw [h2, h1]

/-- What the scan never does: it attempts no activation, it changes neither the phase nor
the threshold, and it removes no location from the registry. -/
theorem _load_dir_frame (env : Env) (w : World) (path : String) :
    activations (_load_dir env w path).trace = activations w.trace ∧
    (_load_dir env w path).manager.priv.load_init_flag = w.manager.priv.load_init_flag ∧
    (_load_dir env w path).manager.priv.init_load_priority =
      w.manager.priv.init_load_priority ∧
    (∀ loc ∈ locations w, loc ∈ locations (_load_dir env w path)) := by
  unfold _load_dir
  split
  · simp [activations_append, activations, locations]
  · exact _load_dir_fold_frame env path _ w

/-- Scanning the directory again, with a registry that holds every location of the
registry the first scan left, registers nothing. -/
theorem _load_dir_settled (env : Env) (w w' : World) (path : String)
    (h : ∀ loc ∈ locations (_load_dir env w path), loc ∈ locations w') :
    (_load_dir env w' path).manager = w'.manager := by
  unfold _load_dir at h ⊢
  split
  · rfl
  · rename_i names hnames
    rw [hnames] at h
    exact _load_dir_fold_settled env path names w w' h

/-! ## The load pass -/

theorem eligible_inactive (flag thr : Int) (info : MateSettingsPluginInfo) :
    eligible flag thr (inactive info) = eligible flag thr info := rfl

/-- The load pass over a list: activation is attempted on the eligible descriptors, in
list order, and no descriptor changes but in its activation state. -/
theorem g_slist_foreach_maybe_activate_plugin (env : Env) (manager : MateSettingsManager)
    (l : List MateSettingsPluginInfo) (trace : List Event) :
    activations (g_slist_foreach (maybe_activate_plugin env manager) l trace).2 =
      activations trace ++
        (l.filter (eligible manager.priv.load_init_flag manager.priv.init_load_priority)).map
          (fun d => d.location) ∧
    (g_slist_foreach (maybe_activate_plugin env manager) l trace).1.map inactive =
      l.map inactive := by
  induction l generalizing trace with
  | nil => simp [g_slist_foreach]
  | cons x xs ih =>
    simp only [g_slist_foreach]
    obtain ⟨h1, h2, h3, h4⟩ := maybe_activate_plugin_spec env manager x trace
    obtain ⟨i1, i2⟩ := ih (maybe_activate_plugin env manager x trace).2
    refine ⟨?_, ?_⟩
    · rw [i1, h1, List.filter_cons]
      split <;> simp
    · rw [List.map_cons, List.map_cons, i2]
      congr 1
      simp only [inactive]
      rw [h2, h3, h4]

/-- A filter that does not look at the activation state selects the same locations
in two lists that agree up to the activation state. -/
theorem filter_map_location_of_inactive (p : MateSettingsPluginInfo → Bool)
    (hp : ∀ d, p (inactive d) = p d) (l1 l2 : List MateSettingsPluginInfo)
    (h : l1.map inactive = l2.map inactive) :
    (l1.filter p).map (fun d => d.location) = (l2.filter p).map (fun d => d.location) := by
  have key : ∀ l : List MateSettingsPluginInfo,
      (l.filter p).map (fun d => d.location) =
        ((l.map inactive).filter p).map (fun d => d.location) := by
    intro l
    induction l with
    | nil => rfl
    | cons x xs ih =>
      simp only [List.map_cons, List.filter_cons, hp]
      split
      · simp only [List.map_cons, ih]
        rfl
      · exact ih
  rw [key l1, key l2, h]

/-- The load pass when modules are supported: the scan, then the sort, then one
activation attempt on each eligible descriptor in the sorted order. -/
theorem mate_settings_manager_load_supported (env : Env) (w : World)
    (h : env.g_module_supported = true) :
    (mate_settings_manager_load env w).ret = true ∧
    (mate_settings_manager_load env w).error = none ∧
    (mate_settings_manager_load env w).world.manager.priv.plugins.map inactive =
      (g_slist_sort (_load_dir env w (env.MATE_SETTINGS_PLUGINDIR ++ "/")).manager.priv.plugins
        compare_priority).map inactive ∧
    activations (mate_settings_manager_load env w).world.trace =
      activations w.trace ++
        ((g_slist_sort (_load_dir env w (env.MATE_SETTINGS_PLUGINDIR ++ "/")).manager.priv.plugins
            compare_priority).filter
          (eligible w.manager.priv.load_init_flag w.manager.priv.init_load_priority)).map
          (fun d => d.location) ∧
    (mate_settings_manager_load env w).world.manager.priv.load_init_flag =
      w.manager.priv.load_init_flag ∧
    (mate_settings_manager_load env w).world.manager.priv.init_load_priority =
      w.manager.priv.init_load_priority := by
  obtain ⟨f1, f2, f3, _⟩ := _load_dir_frame env w (env.MATE_SETTINGS_PLUGINDIR ++ "/")
  unfold mate_settings_manager_load
  simp only [h, Bool.not_true, Bool.false_eq_true, if_false]
  refine ⟨trivial, trivial, ?_, ?_, f2, f3⟩
  · exact (g_slist_foreach_maybe_activate_plugin env _ _ _).2
  · rw [(g_slist_foreach_maybe_activate_plugin env _ _ _).1, f1]
    simp only [f2, f3]

theorem set_init_flag_frame (w : World) (flag : Int) :
    (mate_settings_manager_set_init_flag w flag).manager.priv.plugins =
      w.manager.priv.plugins ∧
    (mate_settings_manager_set_init_flag w flag).manager.priv.load_init_flag = flag ∧
    (mate_settings_manager_set_init_flag w flag).manager.priv.init_load_priority =
      w.manager.priv.init_load_priority ∧
    (mate_settings_manager_set_init_flag w flag).trace = w.trace :=
  ⟨rfl, rfl, rfl, rfl⟩

theorem locations_eq_of_inactive (l1 l2 : List MateSettingsPluginInfo)
    (h : l1.map inactive = l2.map inactive) :
    l1.map (fun d => d.location) = l2.map (fun d => d.location) := by
  have key : ∀ l : List MateSettingsPluginInfo,
      l.map (fun d => d.location) = (l.map inactive).map (fun d => d.location) := by
    intro l
    rw [List.map_map]
    rfl
  rw [key l1, key l2, h]

/-- After a load pass, a second load pass in the same environment registers nothing:
its scan leaves the manager as it finds it. -/
theorem _load_dir_after_load (env : Env) (w : World) (flag : Int)
    (h : env.g_module_supported = true) :
    (_load_dir env
        (mate_settings_manager_set_init_flag (mate_settings_manager_load env w).world flag)
        (env.MATE_SETTINGS_PLUGINDIR ++ "/")).manager =
      (mate_settings_manager_set_init_flag (mate_settings_manager_load env w).world flag).manager := by
  apply _load_dir_settled env w
  intro loc hloc
  obtain ⟨_, _, h3, _⟩ := mate_settings_manager_load_supported env w h
  have h4 := locations_eq_of_inactive _ _ h3
  unfold locations at hloc ⊢
  rw [(set_init_flag_frame _ flag).1, h4]
  exact ((g_slist_sort_perm compare_priority _).map _).mem_iff.2 hloc

/-- A second load pass in the same environment: no descriptor is added or dropped, and
activation is attempted on the eligible descriptors of the registry the first pass
left, in the order in which the second sort puts them. -/
theorem mate_settings_manager_load_again (env : Env) (w : World) (flag : Int)
    (h : env.g_module_supported = true) :
    (mate_settings_manager_load env
        (mate_settings_manager_set_init_flag (mate_settings_manager_load env w).world
          flag)).world.manager.priv.plugins.map inactive =
      (g_slist_sort (mate_settings_manager_load env w).world.manager.priv.plugins
        compare_priority).map inactive ∧
    activations (mate_settings_manager_load env
        (mate_settings_manager_set_init_flag (mate_settings_manager_load env w).world
          flag)).world.trace =
      activations (mate_settings_manager_load env w).world.trace ++
        ((g_slist_sort (mate_settings_manager_load env w).world.manager.priv.plugins
            compare_priority).filter
          (eligible flag w.manager.priv.init_load_priority)).map (fun d => d.location) := by
  obtain ⟨_, _, _, _, _, a6⟩ := mate_settings_manager_load_supported env w h
  obtain ⟨_, _, b3, b4, _, _⟩ := mate_settings_manager_load_supported env
    (mate_settings_manager_set_init_flag (mate_settings_manager_load env w).world flag) h
  rw [_load_dir_after_load env w flag h] at b3 b4
  obtain ⟨c1, c2, c3, c4⟩ :=
    set_init_flag_frame (mate_settings_manager_load env w).world flag
  rw [c1] at b3 b4
  rw [c2, c3, c4, a6] at b4
  exact ⟨b3, b4⟩

theorem eligible_init (thr : Int) (d : MateSettingsPluginInfo) :
    eligible PLUGIN_LOAD_INIT thr d = (d.enabled && decide (d.priority ≤ thr)) := by
  simp [eligible, PLUGIN_LOAD_INIT, PLUGIN_LOAD_ALL, PLUGIN_LOAD_DEFER]

theorem eligible_defer (thr : Int) (d : MateSettingsPluginInfo) :
    eligible PLUGIN_LOAD_DEFER thr d = (d.enabled && decide (d.priority > thr)) := by
  simp [eligible, PLUGIN_LOAD_INIT, PLUGIN_LOAD_ALL, PLUGIN_LOAD_DEFER]

theorem eligible_all (thr : Int) (d : MateSettingsPluginInfo) :
    eligible PLUGIN_LOAD_ALL thr d = d.enabled := by
  simp [eligible, PLUGIN_LOAD_ALL]

/-- C2: the two bootstrap passes in one environment.  With `registry` the registry the
Eager pass leaves: the Eager pass attempts activation exactly on the enabled descriptors
of priority at most the threshold; the Deferred pass works on the same descriptors
(none added, none dropped) and attempts activation exactly on the enabled descriptors of
priority above the threshold, which are the enabled descriptors the Eager pass did not
attempt; so the attempts of the two passes together are the enabled descriptors, each
once. -/
theorem bootstrap_passes_partition (env : Env) (w : World)
    (h : env.g_module_supported = true) :
    activations (eager_pass env w).world.trace =
      activations w.trace ++
        ((eager_pass env w).world.manager.priv.plugins.filter
          (fun d => d.enabled && decide (d.priority ≤ w.manager.priv.init_load_priority))).map
          (fun d => d.location) ∧
    ((deferred_pass env (eager_pass env w).world).world.manager.priv.plugins.map inactive).Perm
      ((eager_pass env w).world.manager.priv.plugins.map inactive) ∧
    activations (deferred_pass env (eager_pass env w).world).world.trace =
      activations (eager_pass env w).world.trace ++
        ((deferred_pass env (eager_pass env w).world).world.manager.priv.plugins.filter
          (fun d => d.enabled && !decide (d.priority ≤ w.manager.priv.init_load_priority))).map
          (fun d => d.location) ∧
    (((deferred_pass env (eager_pass env w).world).world.manager.priv.plugins.filter
        (fun d => d.enabled && !decide (d.priority ≤ w.manager.priv.init_load_priority))).map
        (fun d => d.location)).Perm
      (((eager_pass env w).world.manager.priv.plugins.filter
        (fun d => d.enabled && !decide (d.priority ≤ w.manager.priv.init_load_priority))).map
        (fun d => d.location)) ∧
    (((eager_pass env w).world.manager.priv.plugins.filter
        (fun d => d.enabled && decide (d.priority ≤ w.manager.priv.init_load_priority))).map
        (fun d => d.location) ++
      ((deferred_pass env (eager_pass env w).world).world.manager.priv.plugins.filter
        (fun d => d.enabled && !decide (d.priority ≤ w.manager.priv.init_load_priority))).map
        (fun d => d.location)).Perm
      (((eager_pass env w).world.manager.priv.plugins.filter (fun d => d.enabled)).map
        (fun d => d.location)) := by
  obtain ⟨_, _, a3, a4, _, _⟩ := mate_settings_manager_load_supported env
    (mate_settings_manager_set_init_flag w PLUGIN_LOAD_INIT) h
  obtain ⟨b1, b2⟩ := mate_settings_manager_load_again env
    (mate_settings_manager_set_init_flag w PLUGIN_LOAD_INIT) PLUGIN_LOAD_DEFER h
  obtain ⟨_, c2, c3, c4⟩ := set_init_flag_frame w PLUGIN_LOAD_INIT
  rw [c2, c3, c4] at a4
  rw [c3] at b2
  have hE : (eligible PLUGIN_LOAD_INIT w.manager.priv.init_load_priority) =
      (fun d => d.enabled && decide (d.priority ≤ w.manager.priv.init_load_priority)) :=
    funext (eligible_init _)
  have hD : (eligible PLUGIN_LOAD_DEFER w.manager.priv.init_load_priority) =
      (fun d => d.enabled && !decide (d.priority ≤ w.manager.priv.init_load_priority)) := by
    funext d
    rw [eligible_defer]
    congr 1
    by_cases hd : d.priority ≤ w.manager.priv.init_load_priority
    · have : ¬ d.priority > w.manager.priv.init_load_priority := by omega
      simp [hd, this]
    · have : d.priority > w.manager.priv.init_load_priority := by omega
      simp [hd, this]
  rw [hE] at a4
  rw [hD] at b2
  have hsame : ((g_slist_sort (eager_pass env w).world.manager.priv.plugins
      compare_priority).filter
        (fun d => d.enabled && !decide (d.priority ≤ w.manager.priv.init_load_priority))).map
        (fun d => d.location) =
      ((deferred_pass env (eager_pass env w).world).world.manager.priv.plugins.filter
        (fun d => d.enabled && !decide (d.priority ≤ w.manager.priv.init_load_priority))).map
        (fun d => d.location) :=
    filter_map_location_of_inactive
      (fun d => d.enabled && !decide (d.priority ≤ w.manager.priv.init_load_priority))
      (fun _ => rfl) _ _ b1.symm
  have hdef : (((deferred_pass env (eager_pass env w).world).world.manager.priv.plugins.filter
        (fun d => d.enabled && !decide (d.priority ≤ w.manager.priv.init_load_priority))).map
        (fun d => d.location)).Perm
      (((eager_pass env w).world.manager.priv.plugins.filter
        (fun d => d.enabled && !decide (d.priority ≤ w.manager.priv.init_load_priority))).map
        (fun d => d.location)) := by
    rw [← hsame]
    exact ((g_slist_sort_perm compare_priority _).filter _).map _
  refine ⟨?_, ?_, ?_, hdef, ?_⟩
  · rw [show (eager_pass env w) = mate_settings_manager_load env
      (mate_settings_manager_set_init_flag w PLUGIN_LOAD_INIT) from rfl, a4]
    congr 1
    exact filter_map_location_of_inactive
      (fun d => d.enabled && decide (d.priority ≤ w.manager.priv.init_load_priority))
      (fun _ => rfl) _ _ a3.symm
  · show ((mate_settings_manager_load env (mate_settings_manager_set_init_flag
      (eager_pass env w).world PLUGIN_LOAD_DEFER)).world.manager.priv.plugins.map inactive).Perm _
    unfold eager_pass
    rw [b1]
    exact (g_slist_sort_perm compare_priority _).map _
  · rw [← hsame]
    exact b2
  · refine (List.Perm.append_left _ hdef).trans ?_
    rw [← List.map_append]
    refine List.Perm.map _ ?_
    have hp := List.filter_append_perm
      (fun d : MateSettingsPluginInfo => decide (d.priority ≤ w.manager.priv.init_load_priority))
      ((eager_pass env w).world.manager.priv.plugins.filter (fun d => d.enabled))
    rw [List.filter_filter, List.filter_filter] at hp
    have e1 : (fun d : MateSettingsPluginInfo =>
        d.enabled && decide (d.priority ≤ w.manager.priv.init_load_priority)) =
        (fun a => decide (a.priority ≤ w.manager.priv.init_load_priority) && a.enabled) := by
      funext d; exact Bool.and_comm _ _
    have e2 : (fun d : MateSettingsPluginInfo =>
        d.enabled && !decide (d.priority ≤ w.manager.priv.init_load_priority)) =
        (fun a => (!decide (a.priority ≤ w.manager.priv.init_load_priority)) && a.enabled) := by
      funext d; exact Bool.and_comm _ _
    rw [e1, e2]
    exact hp

/-- Witness of C2: the example environment supports modules, and its Eager pass
attempts activation on the enabled descriptors of priority at most 40. -/
theorem bootstrap_passes_partition_witness :
    example_env.g_module_supported = true ∧
    activations (eager_pass example_env example_world).world.trace =
      activations example_world.trace ++
        ((eager_pass example_env example_world).world.manager.priv.plugins.filter
          (fun d => d.enabled &&
            decide (d.priority ≤ example_world.manager.priv.init_load_priority))).map
          (fun d => d.location) :=
  ⟨rfl, (bootstrap_passes_partition example_env example_world rfl).1⟩

/-- The load pass in phase All when the subtraction of `compare_priority` does not
overflow on the registry: activation is attempted on every enabled descriptor, and the
descriptors are visited in ascending priority. -/
theorem mate_settings_manager_load_all_ascending (env : Env) (w : World)
    (h : env.g_module_supported = true)
    (hall : w.manager.priv.load_init_flag = PLUGIN_LOAD_ALL)
    (hno : NoOverflow (_load_dir env w (env.MATE_SETTINGS_PLUGINDIR ++ "/")).manager.priv.plugins) :
    activations (mate_settings_manager_load env w).world.trace =
      activations w.trace ++
        ((mate_settings_manager_load env w).world.manager.priv.plugins.filter
          (fun d => d.enabled)).map (fun d => d.location) ∧
    (mate_settings_manager_load env w).world.manager.priv.plugins.Pairwise
      (fun x y => x.priority ≤ y.priority) := by
  obtain ⟨_, _, a3, a4, _, _⟩ := mate_settings_manager_load_supported env w h
  refine ⟨?_, ?_⟩
  · rw [a4, hall]
    congr 1
    have hE : eligible PLUGIN_LOAD_ALL w.manager.priv.init_load_priority =
        (fun d => d.enabled) := funext (eligible_all _)
    rw [hE]
    exact filter_map_location_of_inactive (fun d => d.enabled) (fun _ => rfl) _ _ a3.symm
  · have hs := (g_slist_sort_compare_priority _ hno).1
    have hm : ((mate_settings_manager_load env w).world.manager.priv.plugins.map
        inactive).Pairwise (fun x y => x.priority ≤ y.priority) := by
      rw [a3]
      exact List.Pairwise.map inactive (fun _ _ hxy => hxy) hs
    exact (List.pairwise_map.1 hm).imp (fun hxy => hxy)

/-- C3, at the registry of `lo` (priority `-1`) and `hi` (priority `2^31 - 1`): the load
pass in phase All attempts activation of both enabled descriptors, and it visits `hi`,
of the greater priority, before `lo`. -/
theorem load_all_visits_greater_priority_first :
    activations (mate_settings_manager_load overflow_env all_world).world.trace =
      ["hi", "lo"] ∧
    (mate_settings_manager_load overflow_env all_world).world.manager.priv.plugins =
      [{ location := "hi", priority := 2147483647, enabled := true, active := true },
       { location := "lo", priority := -1, enabled := true, active := true }] ∧
    compare_priority
      { location := "hi", priority := 2147483647, enabled := true, active := false }
      { location := "lo", priority := -1, enabled := true, active := false } = -2147483648 := by
  decide

/-! ## Ties -/

/-- Sorting by `compare_priority`, when the subtraction does not overflow on the list,
keeps a descriptor ahead of a descriptor of the same priority. -/
theorem g_slist_sort_pair_sublist (l : List MateSettingsPluginInfo) (hno : NoOverflow l)
    (x y : MateSettingsPluginInfo) (hp : x.priority = y.priority)
    (hsub : [y, x].Sublist l) :
    [y, x].Sublist (g_slist_sort l compare_priority) := by
  have hf := (g_slist_sort_compare_priority l hno).2 y.priority
  have h1 : [y, x].Sublist (l.filter (fun a => decide (a.priority = y.priority))) := by
    have := hsub.filter (fun a => decide (a.priority = y.priority))
    simpa [hp] using this
  rw [← hf] at h1
  exact h1.trans (List.filter_sublist _)

/-- The scan registers at the head of the list: what is in the registry keeps its
relative order, behind whatever is registered later. -/
theorem _load_file_sublist (env : Env) (w : World) (filename : String) :
    w.manager.priv.plugins.Sublist (_load_file env w filename).manager.priv.plugins := by
  rw [_load_file_eq]
  cases mate_settings_plugin_info_new_from_file env filename with
  | none => exact List.Sublist.refl _
  | some info =>
    simp only
    split
    · exact List.Sublist.refl _
    · split
      · exact List.sublist_cons_self _ _
      · exact List.Sublist.refl _

theorem _load_dir_fold_sublist (env : Env) (path : String) (names : List String)
    (w : World) :
    w.manager.priv.plugins.Sublist
      (names.foldl (_load_dir_entry env path) w).manager.priv.plugins := by
  induction names generalizing w with
  | nil => exact List.Sublist.refl _
  | cons n ns ih =>
    simp only [List.foldl_cons]
    refine List.Sublist.trans ?_ (ih (_load_dir_entry env path w n))
    unfold _load_dir_entry
    split
    · exact List.Sublist.refl _
    · simp only
      split
      · exact _load_file_sublist env w _
      · exact List.Sublist.refl _

theorem _load_dir_sublist (env : Env) (w : World) (path : String) :
    w.manager.priv.plugins.Sublist (_load_dir env w path).manager.priv.plugins := by
  unfold _load_dir
  split
  · exact List.Sublist.refl _
  · exact _load_dir_fold_sublist env path _ w

/-- C4, amended: descriptors of equal priority appear in the registry (and are visited
by the load pass) in reverse insertion order.  When `_load_file` registers `y` and `x`
was registered before, `y` is ahead of `x` in the list; later calls of `_load_file` and
scans keep `y` ahead of `x`; and the sort of the load pass keeps `y` ahead of `x` when
they have the same priority and no two priorities of the registry are `2^31` or more
apart. -/
theorem equal_priority_reverse_insertion_order (env : Env) (w : World) (filename : String)
    (x y : MateSettingsPluginInfo)
    (hx : x ∈ w.manager.priv.plugins)
    (hy : (_load_file env w filename).manager.priv.plugins = y :: w.manager.priv.plugins)
    (hp : x.priority = y.priority) :
    [y, x].Sublist (_load_file env w filename).manager.priv.plugins ∧
    (∀ (w' : World) (f : String), [y, x].Sublist w'.manager.priv.plugins →
      [y, x].Sublist (_load_file env w' f).manager.priv.plugins) ∧
    (∀ (w' : World) (path : String), [y, x].Sublist w'.manager.priv.plugins →
      [y, x].Sublist (_load_dir env w' path).manager.priv.plugins) ∧
    (∀ w' : World, env.g_module_supported = true →
      NoOverflow (_load_dir env w' (env.MATE_SETTINGS_PLUGINDIR ++ "/")).manager.priv.plugins →
      [y, x].Sublist w'.manager.priv.plugins →
      [inactive y, inactive x].Sublist
        ((mate_settings_manager_load env w').world.manager.priv.plugins.map inactive)) := by
  refine ⟨?_, ?_, ?_, ?_⟩
  · rw [hy]
    exact List.Sublist.cons₂ y (List.singleton_sublist.2 hx)
  · intro w' f hsub
    exact hsub.trans (_load_file_sublist env w' f)
  · intro w' path hsub
    exact hsub.trans (_load_dir_sublist env w' path)
  · intro w' hsup hno hsub
    obtain ⟨_, _, a3, _, _, _⟩ := mate_settings_manager_load_supported env w' hsup
    rw [a3]
    have h1 := g_slist_sort_pair_sublist _ hno x y hp
      (hsub.trans (_load_dir_sublist env w' _))
    exact h1.map inactive

/-- C4, counterexample: the plugins `a` and `b` have the same priority and `a` is
registered before `b`, and after the load pass `b` comes before `a`. -/
theorem equal_priority_not_in_insertion_order :
    locations (_load_dir_entry tie_env "/p/" all_world "a.mate-settings-plugin") = ["a"] ∧
    locations (_load_dir_entry tie_env "/p/"
      (_load_dir_entry tie_env "/p/" all_world "a.mate-settings-plugin")
      "b.mate-settings-plugin") = ["b", "a"] ∧
    (mate_settings_manager_load tie_env all_world).world.manager.priv.plugins =
      [{ location := "b", priority := 100, enabled := true, active := true },
       { location := "a", priority := 100, enabled := true, active := true }] ∧
    activations (mate_settings_manager_load tie_env all_world).world.trace = ["b", "a"] := by
  decide

/-- Witness of C4: in the tie environment `a` is registered, then `b`, and `b` is ahead
of `a` once registered. -/
theorem equal_priority_reverse_insertion_order_witness :
    [({ location := "b", priority := 100, enabled := true, active := false } :
        MateSettingsPluginInfo),
      { location := "a", priority := 100, enabled := true, active := false }].Sublist
      (_load_file tie_env (_load_file tie_env all_world "/p/a.mate-settings-plugin")
        "/p/b.mate-settings-plugin").manager.priv.plugins :=
  (equal_priority_reverse_insertion_order tie_env
    (_load_file tie_env all_world "/p/a.mate-settings-plugin") "/p/b.mate-settings-plugin"
    { location := "a", priority := 100, enabled := true, active := false }
    { location := "b", priority := 100, enabled := true, active := false }
    (by decide) (by decide) rfl).1

/-- Why the amended C4 asks for priorities less than `2^31` apart: with the priorities
`0`, `2^31 - 1` and `-1` the wrapping subtraction is not transitive, and the sort moves
`x` behind `y`, `p` and `q`, which have the priority of `x` and came after it. -/
theorem g_slist_sort_overflow_reorders_ties :
    (g_slist_sort
      [{ location := "a", priority := 0, enabled := true, active := false },
       { location := "b", priority := 2147483647, enabled := true, active := false },
       { location := "x", priority := -1, enabled := true, active := false },
       { location := "y", priority := -1, enabled := true, active := false },
       { location := "p", priority := -1, enabled := true, active := false },
       { location := "q", priority := -1, enabled := true, active := false }]
      compare_priority).map (fun d => d.location) = ["y", "p", "q", "a", "b", "x"] := by
  decide

/-! ## Location uniqueness -/

theorem _load_file_nodup (env : Env) (w : World) (filename : String)
    (h : (locations w).Nodup) : (locations (_load_file env w filename)).Nodup := by
  rw [_load_file_eq]
  cases mate_settings_plugin_info_new_from_file env filename with
  | none => exact h
  | some info =>
    simp only
    split
    · exact h
    · rename_i hmem
      split
      · simp only [locations, List.map_cons, set_schema_location]
        exact List.nodup_cons.2 ⟨hmem, h⟩
      · exact h

/-- C5: location uniqueness is an invariant of the registry.  From a registry without
two descriptors of the same location (the empty registry is one) every sequence of
`_load_file` calls leads to such a registry; and a manifest whose location is
registered already leaves everything exactly as it was. -/
theorem registry_locations_nodup (env : Env) (w : World) (files : List String)
    (h : (locations w).Nodup) :
    (locations (files.foldl (_load_file env) w)).Nodup ∧
    (∀ (filename : String) (info : MateSettingsPluginInfo),
      mate_settings_plugin_info_new_from_file env filename = some info →
      info.location ∈ locations w →
      _load_file env w filename = w) := by
  refine ⟨?_, ?_⟩
  · induction files generalizing w with
    | nil => exact h
    | cons f fs ih =>
      simp only [List.foldl_cons]
      exact ih (_load_file env w f) (_load_file_nodup env w f h)
  · intro filename info hinfo hmem
    rw [_load_file_eq, hinfo]
    simp only
    rw [if_pos hmem]

/-- Witness of C5: from the empty registry, loading the manifest of `a`, the second
manifest of the location `a` and the manifest of `b` gives two descriptors, and the
first-registered `a` (priority 10 from its schema) is the one kept. -/
theorem registry_locations_nodup_witness :
    (locations example_world).Nodup ∧
    (locations (["/p/a.mate-settings-plugin", "/p/a2.mate-settings-plugin",
        "/p/b.mate-settings-plugin"].foldl (_load_file example_env) example_world)).Nodup ∧
    locations (["/p/a.mate-settings-plugin", "/p/a2.mate-settings-plugin",
        "/p/b.mate-settings-plugin"].foldl (_load_file example_env) example_world) =
      ["b", "a"] :=
  ⟨List.nodup_nil,
   (registry_locations_nodup example_env example_world
      ["/p/a.mate-settings-plugin", "/p/a2.mate-settings-plugin",
       "/p/b.mate-settings-plugin"] List.nodup_nil).1,
   by decide⟩

/-! ## Scanning again -/

/-- Merging two lists, every element of the first being at most every element of the
second for `cmp`, appends them. -/
theorem g_slist_sort_merge_of_le {α : Type} (cmp : α → α → Int) (l1 l2 : List α)
    (h : ∀ a ∈ l1, ∀ b ∈ l2, cmp a b ≤ 0) :
    g_slist_sort_merge cmp l1 l2 = l1 ++ l2 := by
  induction l1 generalizing l2 with
  | nil => simp [g_slist_sort_merge]
  | cons x xs ih =>
    cases l2 with
    | nil => simp [g_slist_sort_merge_nil_right]
    | cons y ys =>
      rw [g_slist_sort_merge_cons_cons,
        if_pos (h x (List.mem_cons_self _ _) y (List.mem_cons_self _ _)),
        ih (y :: ys) (fun a ha b hb => h a (List.mem_cons_of_mem _ ha) b hb)]
      rfl

/-- Sorting a list that ascends along `f` returns it, when `cmp` decides `f a ≤ f b` on
its elements. -/
theorem g_slist_sort_real_of_sorted {α : Type} (cmp : α → α → Int) (f : α → Int)
    (fuel : Nat) (l : List α)
    (hk : ∀ a ∈ l, ∀ b ∈ l, (cmp a b ≤ 0 ↔ f a ≤ f b))
    (hs : l.Pairwise (fun a b => f a ≤ f b)) :
    g_slist_sort_real cmp fuel l = l := by
  induction fuel generalizing l with
  | zero => rfl
  | succ n ih =>
    match l, hk, hs with
    | [], _, _ => rfl
    | [x], _, _ => rfl
    | x :: y :: rest, hk, hs =>
      simp only [g_slist_sort_real]
      generalize x :: y :: rest = l at hk hs ⊢
      have hsplit : l.take (l.length / 2) ++ l.drop (l.length / 2) = l :=
        List.take_append_drop _ _
      have hs' := hs
      rw [← hsplit, List.pairwise_append] at hs'
      obtain ⟨sT, sD, sTD⟩ := hs'
      rw [ih _ (fun a ha b hb => hk a (List.mem_of_mem_take ha) b (List.mem_of_mem_take hb)) sT,
        ih _ (fun a ha b hb => hk a (List.mem_of_mem_drop ha) b (List.mem_of_mem_drop hb)) sD,
        g_slist_sort_merge_of_le cmp _ _
          (fun a ha b hb =>
            (hk a (List.mem_of_mem_take ha) b (List.mem_of_mem_drop hb)).2 (sTD a ha b hb)),
        hsplit]

theorem noOverflow_of_inactive (l1 l2 : List MateSettingsPluginInfo)
    (h : l1.map inactive = l2.map inactive) (hno : NoOverflow l2) : NoOverflow l1 := by
  have key : ∀ a ∈ l1, ∃ a' ∈ l2, a'.priority = a.priority := by
    intro a ha
    have : inactive a ∈ l2.map inactive := by
      rw [← h]; exact List.mem_map_of_mem _ ha
    obtain ⟨a', ha', he⟩ := List.mem_map.1 this
    exact ⟨a', ha', congrArg (fun d => d.priority) he⟩
  intro a ha b hb
  obtain ⟨a', ha', hea⟩ := key a ha
  obtain ⟨b', hb', heb⟩ := key b hb
  rw [← hea, ← heb]
  exact hno a' ha' b' hb'

/-- A second load pass in the same environment, when the subtraction of
`compare_priority` does not overflow on the registry: the registry keeps its
descriptors and their order. -/
theorem mate_settings_manager_load_again_same (env : Env) (w : World) (flag : Int)
    (h : env.g_module_supported = true)
    (hno : NoOverflow (_load_dir env w (env.MATE_SETTINGS_PLUGINDIR ++ "/")).manager.priv.plugins) :
    (mate_settings_manager_load env
        (mate_settings_manager_set_init_flag (mate_settings_manager_load env w).world
          flag)).world.manager.priv.plugins.map inactive =
      (mate_settings_manager_load env w).world.manager.priv.plugins.map inactive := by
  obtain ⟨_, _, a3, _, _, _⟩ := mate_settings_manager_load_supported env w h
  rw [(mate_settings_manager_load_again env w flag h).1]
  have hnoS : NoOverflow (g_slist_sort
      (_load_dir env w (env.MATE_SETTINGS_PLUGINDIR ++ "/")).manager.priv.plugins
      compare_priority) := by
    intro a ha b hb
    exact hno a ((g_slist_sort_perm compare_priority _).mem_iff.1 ha) b
      ((g_slist_sort_perm compare_priority _).mem_iff.1 hb)
  have hno1 : NoOverflow (mate_settings_manager_load env w).world.manager.priv.plugins :=
    noOverflow_of_inactive _ _ a3 hnoS
  have hs := (g_slist_sort_compare_priority _ hno).1
  have hs1 : (mate_settings_manager_load env w).world.manager.priv.plugins.Pairwise
      (fun x y => x.priority ≤ y.priority) := by
    have hm : ((mate_settings_manager_load env w).world.manager.priv.plugins.map
        inactive).Pairwise (fun x y => x.priority ≤ y.priority) := by
      rw [a3]
      exact List.Pairwise.map inactive (fun _ _ hxy => hxy) hs
    exact (List.pairwise_map.1 hm).imp (fun hxy => hxy)
  have : g_slist_sort (mate_settings_manager_load env w).world.manager.priv.plugins
      compare_priority = (mate_settings_manager_load env w).world.manager.priv.plugins :=
    g_slist_sort_real_of_sorted compare_priority (fun d => d.priority) _ _
      (fun a ha b hb => compare_priority_le_zero_iff a b (hno1 a ha b hb)) hs1
  rw [this]

/-- C6, at the directory of `p3` (priority `-2^31`), `p2` (`-1`), `p1` (`2^31 - 1`) and
`p0` (`-1`): the second load pass adds no descriptor, and it leaves the registry in
another order than the first. -/
theorem rescan_reorders_registry :
    locations (mate_settings_manager_load rescan_env all_world).world =
      ["p3", "p0", "p1", "p2"] ∧
    locations (mate_settings_manager_load rescan_env
      (mate_settings_manager_load rescan_env all_world).world).world =
      ["p1", "p3", "p0", "p2"] := by
  decide

/-! ## The schema gate -/

theorem is_schema_iff (env : Env) (schema : String) :
    is_schema env schema = true ↔
      ∃ non_relocatable relocatable,
        env.schema_source = some (non_relocatable, relocatable) ∧
        (schema ∈ non_relocatable ∨ schema ∈ relocatable) := by
  unfold is_schema
  cases env.schema_source with
  | none => simp
  | some p =>
    obtain ⟨nr, r⟩ := p
    simp only [Bool.or_eq_true, is_item_in_schema_iff, Option.some.injEq, Prod.mk.injEq]
    constructor
    · intro hm
      exact ⟨nr, r, ⟨rfl, rfl⟩, hm⟩
    · rintro ⟨nr', r', ⟨h1, h2⟩, hm⟩
      subst h1 h2
      exact hm

/-- C7: a manifest that parses and whose schema name
`org.mate.SettingsDaemon.plugins.<location>` is not among the installed schemas,
neither the non-relocatable nor the relocatable ones (or there is no schema source at
all), is not inserted: the manager after `_load_file` is the manager before.  A manifest
with a location that is not registered and whose schema is installed is inserted: the
registry grows by exactly one descriptor, of that location, at its head. -/
theorem _load_file_schema_gate (env : Env) (w : World) (filename : String)
    (info : MateSettingsPluginInfo)
    (hparse : mate_settings_plugin_info_new_from_file env filename = some info) :
    (env.schema_source = none → (_load_file env w filename).manager = w.manager) ∧
    (∀ non_relocatable relocatable,
      env.schema_source = some (non_relocatable, relocatable) →
      "org.mate.SettingsDaemon.plugins." ++ info.location ∉ non_relocatable →
      "org.mate.SettingsDaemon.plugins." ++ info.location ∉ relocatable →
      (_load_file env w filename).manager = w.manager) ∧
    (∀ non_relocatable relocatable,
      env.schema_source = some (non_relocatable, relocatable) →
      ("org.mate.SettingsDaemon.plugins." ++ info.location ∈ non_relocatable ∨
       "org.mate.SettingsDaemon.plugins." ++ info.location ∈ relocatable) →
      info.location ∉ locations w →
      ∃ d, d.location = info.location ∧
        (_load_file env w filename).manager.priv.plugins = d :: w.manager.priv.plugins ∧
        (_load_file env w filename).manager.priv.plugins.length =
          w.manager.priv.plugins.length + 1) := by
  have hname : plugin_schema info = "org.mate.SettingsDaemon.plugins." ++ info.location := by
    simp [plugin_schema, mate_settings_plugin_info_get_location, DEFAULT_SETTINGS_NAMESPACE]
  rw [_load_file_eq, hparse]
  simp only
  refine ⟨?_, ?_, ?_⟩
  · intro hsrc
    have hs : ¬ is_schema env (plugin_schema info) = true := by
      rw [is_schema_iff, hsrc]; simp
    split
    · rfl
    · simp [hs]
  · intro nr r hsrc h1 h2
    have hs : ¬ is_schema env (plugin_schema info) = true := by
      rw [is_schema_iff, hsrc, hname]
      rintro ⟨nr', r', he, hm⟩
      cases he
      exact hm.elim h1 h2
    split
    · rfl
    · simp [hs]
  · intro nr r hsrc hm hnew
    have hs : is_schema env (plugin_schema info) = true := by
      rw [is_schema_iff, hname]
      exact ⟨nr, r, hsrc, hm⟩
    rw [if_neg hnew, if_pos hs]
    exact ⟨_, set_schema_location env info _, rfl, rfl⟩

/-- Witness of C7: in the example environment the manifest of `d` parses and its schema
is not installed, so loading it leaves the manager as it is. -/
theorem _load_file_schema_gate_witness :
    mate_settings_plugin_info_new_from_file example_env "/p/d.mate-settings-plugin" =
      some { location := "d", priority := 100, enabled := false, active := false } ∧
    (_load_file example_env example_world "/p/d.mate-settings-plugin").manager =
      example_world.manager :=
  ⟨by decide,
   (_load_file_schema_gate example_env example_world "/p/d.mate-settings-plugin"
      { location := "d", priority := 100, enabled := false, active := false }
      (by decide)).2.1 _ _ rfl (by decide) (by decide)⟩

/-! ## The result of the load pass -/

/-- C8: `mate_settings_manager_load` returns `FALSE`, with the error set, if and only
if the module system is unsupported; when modules are supported it returns `TRUE` with
no error, whatever the directory holds, whether manifests parse and whatever the plugin
activations answer; and when the plugin directory cannot be opened the scan leaves the
manager as it is (it adds no descriptor). -/
theorem mate_settings_manager_load_ret (env : Env) (w : World) :
    ((mate_settings_manager_load env w).ret = false ↔ env.g_module_supported = false) ∧
    ((mate_settings_manager_load env w).ret = true ↔ env.g_module_supported = true) ∧
    ((mate_settings_manager_load env w).ret = false ↔
      (mate_settings_manager_load env w).error = some "Plugins not supported") ∧
    ((mate_settings_manager_load env w).ret = true ↔
      (mate_settings_manager_load env w).error = none) ∧
    (∀ message : String,
      env.g_dir_open (env.MATE_SETTINGS_PLUGINDIR ++ "/") = Except.error message →
      (_load_dir env w (env.MATE_SETTINGS_PLUGINDIR ++ "/")).manager = w.manager) := by
  refine ⟨?_, ?_, ?_, ?_, ?_⟩
  · unfold mate_settings_manager_load
    cases env.g_module_supported <;> simp
  · unfold mate_settings_manager_load
    cases env.g_module_supported <;> simp
  · unfold mate_settings_manager_load
    cases env.g_module_supported <;> simp
  · unfold mate_settings_manager_load
    cases env.g_module_supported <;> simp
  · intro message hopen
    unfold _load_dir
    rw [hopen]

/-- Witness of C8: the directory of `closed_env` cannot be opened; the scan leaves the
manager as it is. -/
theorem mate_settings_manager_load_ret_witness :
    closed_env.g_dir_open (closed_env.MATE_SETTINGS_PLUGINDIR ++ "/") =
      Except.error "No such file or directory" ∧
    (_load_dir closed_env example_world (closed_env.MATE_SETTINGS_PLUGINDIR ++ "/")).manager =
      example_world.manager :=
  ⟨rfl, (mate_settings_manager_load_ret closed_env example_world).2.2.2.2 _ rfl⟩

/-- C9: when the module system is unsupported, `mate_settings_manager_load` touches
no descriptor: the manager (registry list included) is what it was, the only event is
the warning, and so activation is attempted on no descriptor; it returns `FALSE`. -/
theorem mate_settings_manager_load_unsupported (env : Env) (w : World)
    (h : env.g_module_supported = false) :
    (mate_settings_manager_load env w).world.manager = w.manager ∧
    (mate_settings_manager_load env w).world.trace =
      w.trace ++ [Event.warning "mate-settings-daemon is not able to initialize the plugins."] ∧
    activations (mate_settings_manager_load env w).world.trace = activations w.trace ∧
    (mate_settings_manager_load env w).ret = false := by
  unfold mate_settings_manager_load
  simp [h, activations_append, activations]

/-- Witness of C9: without module support the load pass on a registry of one descriptor
leaves that registry and attempts no activation. -/
theorem mate_settings_manager_load_unsupported_witness :
    unsupported_env.g_module_supported = false ∧
    (mate_settings_manager_load unsupported_env
      { manager := { priv := { plugins := [{ location := "a", priority := 10,
                                             enabled := true, active := false }],
                               init_load_priority := 40,
                               load_init_flag := PLUGIN_LOAD_ALL, replace := false } },
        trace := [] }).world.manager.priv.plugins =
      [{ location := "a", priority := 10, enabled := true, active := false }] :=
  ⟨rfl, congrArg (fun m => m.priv.plugins)
    (mate_settings_manager_load_unsupported unsupported_env
      { manager := { priv := { plugins := [{ location := "a", priority := 10,
                                             enabled := true, active := false }],
                               init_load_priority := 40,
                               load_init_flag := PLUGIN_LOAD_ALL, replace := false } },
        trace := [] } rfl).1⟩

/-! ## The Awake handler -/

/-- C10: the Awake handler runs the load pass on the manager with the phase set to All,
and returns what the load pass returns: the manager it leaves is the one the load pass
leaves, in phase All; when the load pass fails the reply is the load pass's error, when
it succeeds the reply is the empty acknowledgment; nothing else is added to the trace. -/
theorem mate_settings_manager_awake_handler_spec (env : Env) (w : World) :
    (mate_settings_manager_awake_handler env w).2 =
      (mate_settings_manager_load env
        (mate_settings_manager_set_init_flag w PLUGIN_LOAD_ALL)).ret ∧
    (mate_settings_manager_awake_handler env w).1.manager =
      (mate_settings_manager_load env
        (mate_settings_manager_set_init_flag w PLUGIN_LOAD_ALL)).world.manager ∧
    (mate_settings_manager_awake_handler env w).1.manager.priv.load_init_flag =
      PLUGIN_LOAD_ALL ∧
    ((mate_settings_manager_load env
        (mate_settings_manager_set_init_flag w PLUGIN_LOAD_ALL)).ret = false →
      (mate_settings_manager_load env
        (mate_settings_manager_set_init_flag w PLUGIN_LOAD_ALL)).error =
        some "Plugins not supported" ∧
      (mate_settings_manager_awake_handler env w).1.trace =
        (mate_settings_manager_load env
          (mate_settings_manager_set_init_flag w PLUGIN_LOAD_ALL)).world.trace ++
          [Event.return_gerror "Plugins not supported"]) ∧
    ((mate_settings_manager_load env
        (mate_settings_manager_set_init_flag w PLUGIN_LOAD_ALL)).ret = true →
      (mate_settings_manager_awake_handler env w).1.trace =
        (mate_settings_manager_load env
          (mate_settings_manager_set_init_flag w PLUGIN_LOAD_ALL)).world.trace ++
          [Event.complete_awake]) := by
  have hflag : (mate_settings_manager_load env
      (mate_settings_manager_set_init_flag w PLUGIN_LOAD_ALL)).world.manager.priv.load_init_flag =
      PLUGIN_LOAD_ALL := by
    cases hs : env.g_module_supported with
    | true =>
      exact (mate_settings_manager_load_supported env _ hs).2.2.2.2.1
    | false =>
      rw [(mate_settings_manager_load_unsupported env _ hs).1]
      rfl
  have herr : (mate_settings_manager_load env
      (mate_settings_manager_set_init_flag w PLUGIN_LOAD_ALL)).ret = false →
      (mate_settings_manager_load env
        (mate_settings_manager_set_init_flag w PLUGIN_LOAD_ALL)).error =
        some "Plugins not supported" := by
    unfold mate_settings_manager_load
    cases env.g_module_supported <;> simp
  unfold mate_settings_manager_awake_handler
  simp only
  cases hr : (mate_settings_manager_load env
      (mate_settings_manager_set_init_flag w PLUGIN_LOAD_ALL)).ret with
  | true => simp [hflag]
  | false => simp [hflag, herr hr]

/-- Witness of C10: without module support the load pass fails and the Awake handler
replies with its error. -/
theorem mate_settings_manager_awake_handler_spec_witness :
    (mate_settings_manager_load unsupported_env
      (mate_settings_manager_set_init_flag example_world PLUGIN_LOAD_ALL)).ret = false ∧
    (mate_settings_manager_awake_handler unsupported_env example_world).1.trace =
      (mate_settings_manager_load unsupported_env
        (mate_settings_manager_set_init_flag example_world PLUGIN_LOAD_ALL)).world.trace ++
        [Event.return_gerror "Plugins not supported"] :=
  ⟨rfl, ((mate_settings_manager_awake_handler_spec unsupported_env example_world).2.2.2.1
    rfl).2⟩

/-! ## The Start handler -/

theorem set_init_flag_same (w : World) :
    mate_settings_manager_set_init_flag w w.manager.priv.load_init_flag = w := by
  obtain ⟨⟨⟨_, _, _, _⟩⟩, _⟩ := w
  rfl

/-- When the phase is All already, the Start handler and the Awake handler leave the
same manager, attempt the same activations and return the same result. -/
theorem mate_settings_manager_start_handler_in_phase_all (env : Env) (w : World)
    (h : w.manager.priv.load_init_flag = PLUGIN_LOAD_ALL) :
    (mate_settings_manager_start_handler env w).1.manager =
      (mate_settings_manager_awake_handler env w).1.manager ∧
    activations (mate_settings_manager_start_handler env w).1.trace =
      activations (mate_settings_manager_awake_handler env w).1.trace ∧
    (mate_settings_manager_start_handler env w).2 =
      (mate_settings_manager_awake_handler env w).2 := by
  have hw : mate_settings_manager_set_init_flag w PLUGIN_LOAD_ALL = w := by
    rw [← h]; exact set_init_flag_same w
  unfold mate_settings_manager_start_handler mate_settings_manager_awake_handler
  simp only [hw]
  cases (mate_settings_manager_load env w).ret <;>
    simp [activations_append, activations]

/-- C11, at the manager in phase Eager with threshold 40 and the plugins `a` (priority
10) and `b` (priority 50): the Awake handler runs the load pass in phase All and
attempts activation of `a` and `b`; the Start handler runs it in the current phase,
attempts activation of `a` only, and leaves the manager in phase Eager. -/
theorem start_handler_keeps_the_phase :
    activations (mate_settings_manager_awake_handler example_env example_world).1.trace =
      ["a", "b"] ∧
    activations (mate_settings_manager_start_handler example_env example_world).1.trace =
      ["a"] ∧
    (mate_settings_manager_awake_handler example_env
      example_world).1.manager.priv.load_init_flag = PLUGIN_LOAD_ALL ∧
    (mate_settings_manager_start_handler example_env
      example_world).1.manager.priv.load_init_flag = PLUGIN_LOAD_INIT ∧
    (mate_settings_manager_start_handler example_env example_world).1.manager ≠
      (mate_settings_manager_awake_handler example_env example_world).1.manager := by
  decide

/-! ## Stopping -/

theorem deactivations_append (t1 t2 : List Event) :
    deactivations (t1 ++ t2) = deactivations t1 ++ deactivations t2 := by
  induction t1 with
  | nil => rfl
  | cons e t ih => cases e <;> simp [deactivations, ih]

theorem deactivated_append (t1 t2 : List Event) :
    deactivated (t1 ++ t2) = deactivated t1 ++ deactivated t2 := by
  induction t1 with
  | nil => rfl
  | cons e t ih => cases e <;> simp [deactivated, ih]

theorem responses_append (t1 t2 : List Event) :
    responses (t1 ++ t2) = responses t1 ++ responses t2 := by
  induction t1 with
  | nil => rfl
  | cons e t ih => cases e <;> simp [responses, ih]

theorem quits_append (t1 t2 : List Event) : quits (t1 ++ t2) = quits t1 + quits t2 := by
  induction t1 with
  | nil => simp [quits]
  | cons e t ih =>
    cases e <;> simp [quits, ih]
    omega

/-- One call of `_unload_plugin`: deactivation is called exactly on an enabled
descriptor, a Deactivated event is emitted exactly for an enabled Active descriptor,
whatever the teardown answers; an enabled descriptor ends Inactive, a disabled one is
left as it is; no session response and no quit request is made. -/
theorem _unload_plugin_spec (env : Env) (info : MateSettingsPluginInfo)
    (trace : List Event) :
    deactivations (_unload_plugin env info trace).2 =
      deactivations trace ++ (if info.enabled then [info.location] else []) ∧
    deactivated (_unload_plugin env info trace).2 =
      deactivated trace ++ (if info.enabled && info.active then [info.location] else []) ∧
    (_unload_plugin env info trace).1 =
      (if info.enabled then { info with active := false } else info) ∧
    activations (_unload_plugin env info trace).2 = activations trace ∧
    responses (_unload_plugin env info trace).2 = responses trace ∧
    quits (_unload_plugin env info trace).2 = quits trace := by
  unfold _unload_plugin mate_settings_plugin_info_get_enabled
    mate_settings_plugin_info_deactivate
  cases he : info.enabled
  · simp
  · cases ha : info.active
    · obtain ⟨_, _, _, _⟩ := info
      simp only at he ha
      subst he ha
      simp [deactivations_append, deactivations, deactivated_append, deactivated,
        activations_append, activations, responses_append, responses, quits_append, quits]
    · cases hd : env.plugin_deactivate (trace ++ [Event.deactivate info.location]) info <;>
        simp [hd, deactivations_append, deactivations, deactivated_append, deactivated,
          activations_append, activations, responses_append, responses, quits_append, quits]

/-- The pass of `_unload_all` over a list. -/
theorem g_slist_foreach_unload_plugin (env : Env) (l : List MateSettingsPluginInfo)
    (trace : List Event) :
    deactivations (g_slist_foreach (_unload_plugin env) l trace).2 =
      deactivations trace ++ (l.filter (fun d => d.enabled)).map (fun d => d.location) ∧
    deactivated (g_slist_foreach (_unload_plugin env) l trace).2 =
      deactivated trace ++
        (l.filter (fun d => d.enabled && d.active)).map (fun d => d.location) ∧
    (g_slist_foreach (_unload_plugin env) l trace).1 =
      l.map (fun d => if d.enabled then { d with active := false } else d) ∧
    activations (g_slist_foreach (_unload_plugin env) l trace).2 = activations trace ∧
    responses (g_slist_foreach (_unload_plugin env) l trace).2 = responses trace ∧
    quits (g_slist_foreach (_unload_plugin env) l trace).2 = quits trace := by
  induction l generalizing trace with
  | nil => simp [g_slist_foreach]
  | cons x xs ih =>
    simp only [g_slist_foreach]
    obtain ⟨a1, a2, a3, a4, a5, a6⟩ := _unload_plugin_spec env x trace
    obtain ⟨b1, b2, b3, b4, b5, b6⟩ := ih (_unload_plugin env x trace).2
    refine ⟨?_, ?_, ?_, b4.trans a4, b5.trans a5, b6.trans a6⟩
    · rw [b1, a1, List.filter_cons]
      cases x.enabled <;> simp
    · rw [b2, a2, List.filter_cons]
      cases x.enabled <;> cases x.active <;> simp
    · rw [b3, a3, List.map_cons]

/-- C12, amended: `mate_settings_manager_stop` calls deactivate on each enabled
descriptor of the registry, so a Deactivated event is emitted for each descriptor that
is both enabled and Active, whatever the teardowns answer; when every Active descriptor
is enabled these are all the `N` Active descriptors and exactly `N` events are emitted.
An enabled descriptor is dropped Inactive, a disabled one is dropped as it is, and the
registry is left empty. -/
theorem mate_settings_manager_stop_deactivates_enabled (env : Env) (w : World) :
    (mate_settings_manager_stop env w).manager.priv.plugins = [] ∧
    deactivations (mate_settings_manager_stop env w).trace =
      deactivations w.trace ++
        (w.manager.priv.plugins.filter (fun d => d.enabled)).map (fun d => d.location) ∧
    deactivated (mate_settings_manager_stop env w).trace =
      deactivated w.trace ++
        (w.manager.priv.plugins.filter (fun d => d.enabled && d.active)).map
          (fun d => d.location) ∧
    (g_slist_foreach (_unload_plugin env) w.manager.priv.plugins w.trace).1 =
      w.manager.priv.plugins.map
        (fun d => if d.enabled then { d with active := false } else d) ∧
    ((∀ d ∈ w.manager.priv.plugins, d.active = true → d.enabled = true) →
      (deactivated (mate_settings_manager_stop env w).trace).length =
        (deactivated w.trace).length +
          (w.manager.priv.plugins.filter (fun d => d.active)).length) := by
  obtain ⟨a1, a2, a3, _, _, _⟩ :=
    g_slist_foreach_unload_plugin env w.manager.priv.plugins w.trace
  refine ⟨rfl, a1, a2, a3, ?_⟩
  intro h
  have hf : w.manager.priv.plugins.filter (fun d => d.enabled && d.active) =
      w.manager.priv.plugins.filter (fun d => d.active) := by
    apply List.filter_congr
    intro d hd
    cases ha : d.active
    · simp
    · simp [h d hd ha]
  show (deactivated (g_slist_foreach (_unload_plugin env) w.manager.priv.plugins
    w.trace).2).length = _
  rw [a2, hf, List.length_append, List.length_map]

/-- C12, counterexample: the registry holds one Active descriptor, which is disabled;
`mate_settings_manager_stop` calls deactivate on no descriptor and no Deactivated event
is emitted, and the descriptor is dropped still Active. -/
theorem stop_skips_disabled_active_descriptor :
    (disabled_active_world.manager.priv.plugins.filter (fun d => d.active)).length = 1 ∧
    deactivations (mate_settings_manager_stop example_env disabled_active_world).trace = [] ∧
    deactivated (mate_settings_manager_stop example_env disabled_active_world).trace = [] ∧
    (g_slist_foreach (_unload_plugin example_env)
      disabled_active_world.manager.priv.plugins disabled_active_world.trace).1 =
      [{ location := "a", priority := 10, enabled := false, active := true }] := by
  decide

/-- Witness of C12: in the running world every Active descriptor is enabled, and
stopping emits one Deactivated event, for the one Active descriptor. -/
theorem mate_settings_manager_stop_deactivates_enabled_witness :
    (∀ d ∈ running_world.manager.priv.plugins, d.active = true → d.enabled = true) ∧
    (deactivated (mate_settings_manager_stop example_env running_world).trace).length =
      (deactivated running_world.trace).length +
        (running_world.manager.priv.plugins.filter (fun d => d.active)).length :=
  ⟨by decide,
   (mate_settings_manager_stop_deactivates_enabled example_env running_world).2.2.2.2
     (by decide)⟩

/-- C13: `mate_settings_manager_stop` drops every descriptor, and a second call does
nothing: it calls deactivate on no descriptor and leaves the manager and the trace
exactly as the first call left them. -/
theorem mate_settings_manager_stop_idempotent (env : Env) (w : World) :
    (mate_settings_manager_stop env w).manager.priv.plugins = [] ∧
    mate_settings_manager_stop env (mate_settings_manager_stop env w) =
      mate_settings_manager_stop env w ∧
    deactivations (mate_settings_manager_stop env (mate_settings_manager_stop env w)).trace =
      deactivations (mate_settings_manager_stop env w).trace := by
  have h : mate_settings_manager_stop env (mate_settings_manager_stop env w) =
      mate_settings_manager_stop env w := by
    simp [mate_settings_manager_stop, _unload_all, g_slist_foreach]
  exact ⟨rfl, h, by rw [h]⟩

/-! ## Singleton construction -/

/-- C14: when `mate_settings_manager_new (r1)` has created the instance, a later
`mate_settings_manager_new (r2)` returns that same instance and creates none: the
variable `manager_object` is left as it is, no bus name is requested again, one
reference is added; the instance has the replace value `r1` of the first call, whatever
`r2` is.  The same holds whenever `manager_object` is set. -/
theorem mate_settings_manager_new_singleton (env : Env) (r1 r2 : Bool) (g : Globals)
    (h : g.manager_object = none) :
    (mate_settings_manager_new env r1 g).1.manager_object =
      some (mate_settings_manager_new env r1 g).2 ∧
    (mate_settings_manager_new env r1 g).2.priv.replace = r1 ∧
    (mate_settings_manager_new env r2 (mate_settings_manager_new env r1 g).1).2 =
      (mate_settings_manager_new env r1 g).2 ∧
    (mate_settings_manager_new env r2 (mate_settings_manager_new env r1 g).1).2.priv.replace =
      r1 ∧
    (mate_settings_manager_new env r2 (mate_settings_manager_new env r1 g).1).1.manager_object =
      (mate_settings_manager_new env r1 g).1.manager_object ∧
    (mate_settings_manager_new env r2 (mate_settings_manager_new env r1 g).1).1.trace =
      (mate_settings_manager_new env r1 g).1.trace ∧
    (mate_settings_manager_new env r2 (mate_settings_manager_new env r1 g).1).1.ref_count =
      (mate_settings_manager_new env r1 g).1.ref_count + 1 ∧
    (∀ (g' : Globals) (manager : MateSettingsManager), g'.manager_object = some manager →
      mate_settings_manager_new env r2 g' =
        ({ g' with ref_count := g'.ref_count + 1 }, manager)) := by
  have h1 : mate_settings_manager_new env r1 g =
      ({ manager_object := some
           (mate_settings_manager_set_replace (mate_settings_manager_init env) r1),
         ref_count := 1,
         trace := g.trace ++ [Event.bus_own_name r1] },
       mate_settings_manager_set_replace (mate_settings_manager_init env) r1) := by
    unfold mate_settings_manager_new
    rw [h]
    rfl
  have h2 : ∀ (g' : Globals) (manager : MateSettingsManager),
      g'.manager_object = some manager →
      mate_settings_manager_new env r2 g' =
        ({ g' with ref_count := g'.ref_count + 1 }, manager) := by
    intro g' manager hg
    unfold mate_settings_manager_new
    rw [hg]
  rw [h1]
  refine ⟨rfl, rfl, ?_, ?_, ?_, ?_, ?_, h2⟩
  · rw [h2 _ _ rfl]
  · rw [h2 _ _ rfl]
    rfl
  · rw [h2 _ _ rfl]
  · rw [h2 _ _ rfl]
  · rw [h2 _ _ rfl]

/-- Witness of C14: from the initial globals, constructing with `replace = true` and
then with `replace = false` returns the same instance, whose replace value is true. -/
theorem mate_settings_manager_new_singleton_witness :
    initial_globals.manager_object = none ∧
    (mate_settings_manager_new example_env false
      (mate_settings_manager_new example_env true initial_globals).1).2 =
      (mate_settings_manager_new example_env true initial_globals).2 ∧
    (mate_settings_manager_new example_env false
      (mate_settings_manager_new example_env true initial_globals).1).2.priv.replace = true :=
  ⟨rfl,
   (mate_settings_manager_new_singleton example_env true false initial_globals rfl).2.2.1,
   (mate_settings_manager_new_singleton example_env true false initial_globals rfl).2.2.2.1⟩

/-! ## The session signals -/

theorem mate_settings_manager_stop_frame (env : Env) (w : World) :
    activations (mate_settings_manager_stop env w).trace = activations w.trace ∧
    responses (mate_settings_manager_stop env w).trace = responses w.trace ∧
    quits (mate_settings_manager_stop env w).trace = quits w.trace := by
  obtain ⟨_, _, _, a4, a5, a6⟩ :=
    g_slist_foreach_unload_plugin env w.manager.priv.plugins w.trace
  exact ⟨a4, a5, a6⟩

theorem g_slist_foreach_unload_plugin_extends (env : Env) (l : List MateSettingsPluginInfo)
    (trace : List Event) :
    ∃ extra, (g_slist_foreach (_unload_plugin env) l trace).2 = trace ++ extra := by
  induction l generalizing trace with
  | nil => exact ⟨[], by simp [g_slist_foreach]⟩
  | cons x xs ih =>
    simp only [g_slist_foreach]
    have hx : ∃ extra, (_unload_plugin env x trace).2 = trace ++ extra := by
      unfold _unload_plugin mate_settings_plugin_info_deactivate
      split
      · simp only
        split
        · split
          · exact ⟨_, List.append_assoc _ _ _⟩
          · exact ⟨[Event.deactivate x.location,
              Event.warning ("Plugin " ++ x.location ++ ": deactivation failed"),
              Event.plugin_deactivated x.location], by simp⟩
        · exact ⟨_, rfl⟩
      · exact ⟨[], by simp⟩
    obtain ⟨e1, h1⟩ := hx
    obtain ⟨e2, h2⟩ := ih (_unload_plugin env x trace).2
    exact ⟨e1 ++ e2, by rw [h2, h1, List.append_assoc]⟩

/-- The response of `on_private_signal`: one `EndSessionResponse` call with `isOkay`
true, followed by a warning exactly when the call fails; the manager is not touched. -/
theorem send_end_session_response_spec (env : Env) (w : World) :
    (send_end_session_response env w).manager = w.manager ∧
    ((send_end_session_response env w).trace =
        w.trace ++ [Event.end_session_response true] ∨
     ∃ message, (send_end_session_response env w).trace =
        w.trace ++ [Event.end_session_response true,
          Event.warning ("failed to send session response: " ++ message)]) ∧
    responses (send_end_session_response env w).trace = responses w.trace ++ [true] ∧
    quits (send_end_session_response env w).trace = quits w.trace ∧
    deactivations (send_end_session_response env w).trace = deactivations w.trace := by
  unfold send_end_session_response
  simp only
  cases env.g_dbus_proxy_call_sync (w.trace ++ [Event.end_session_response true]) with
  | error message =>
    refine ⟨rfl, Or.inr ⟨message, by simp⟩, ?_, ?_, ?_⟩ <;>
      simp [responses_append, responses, quits_append, quits, deactivations_append,
        deactivations]
  | ok u =>
    refine ⟨rfl, Or.inl rfl, ?_, ?_, ?_⟩ <;>
      simp [responses_append, responses, quits_append, quits, deactivations_append,
        deactivations]

/-- C15: on the signal `EndSession`, `on_private_signal` sends the response, then runs
`mate_settings_manager_stop`, then calls `gtk_main_quit`: exactly one
`EndSessionResponse` call is made, with `isOkay` true, and it precedes every
deactivation of the stop; the registry is emptied and one quit request is made,
whether or not the response could be sent.  A signal that is neither `QueryEndSession`
nor `EndSession` changes nothing: no response, no stop, no quit. -/
theorem on_private_signal_end_session (env : Env) (w : World) :
    (on_private_signal env "EndSession" w).trace =
      (mate_settings_manager_stop env (send_end_session_response env w)).trace ++
        [Event.gtk_main_quit] ∧
    (on_private_signal env "EndSession" w).manager =
      (mate_settings_manager_stop env (send_end_session_response env w)).manager ∧
    (∃ rest, (on_private_signal env "EndSession" w).trace =
      w.trace ++ Event.end_session_response true :: rest ∧
      deactivations rest =
        (w.manager.priv.plugins.filter (fun d => d.enabled)).map (fun d => d.location)) ∧
    responses (on_private_signal env "EndSession" w).trace = responses w.trace ++ [true] ∧
    quits (on_private_signal env "EndSession" w).trace = quits w.trace + 1 ∧
    (on_private_signal env "EndSession" w).manager.priv.plugins = [] ∧
    (∀ signal_name : String, signal_name ≠ "QueryEndSession" → signal_name ≠ "EndSession" →
      on_private_signal env signal_name w = w) := by
  have hq : ¬ strcmp "EndSession" "QueryEndSession" = 0 := by decide
  have he : strcmp "EndSession" "EndSession" = 0 := by decide
  have hdef : on_private_signal env "EndSession" w =
      { mate_settings_manager_stop env (send_end_session_response env w) with
        trace := (mate_settings_manager_stop env (send_end_session_response env w)).trace ++
          [Event.gtk_main_quit] } := by
    unfold on_private_signal
    simp [hq, he]
  obtain ⟨s1, s2, s3, s4, s5⟩ := send_end_session_response_spec env w
  obtain ⟨_, f2, f3⟩ :=
    mate_settings_manager_stop_frame env (send_end_session_response env w)
  obtain ⟨d1, _, _, _, _, _⟩ := g_slist_foreach_unload_plugin env
    (send_end_session_response env w).manager.priv.plugins
    (send_end_session_response env w).trace
  obtain ⟨extra, hextra⟩ := g_slist_foreach_unload_plugin_extends env
    (send_end_session_response env w).manager.priv.plugins
    (send_end_session_response env w).trace
  have hstop : (mate_settings_manager_stop env (send_end_session_response env w)).trace =
      (g_slist_foreach (_unload_plugin env)
        (send_end_session_response env w).manager.priv.plugins
        (send_end_session_response env w).trace).2 := rfl
  refine ⟨by rw [hdef], by rw [hdef], ?_, ?_, ?_, by rw [hdef]; rfl, ?_⟩
  · have hpre : ∃ mid, (send_end_session_response env w).trace =
        w.trace ++ Event.end_session_response true :: mid := by
      rcases s2 with h | ⟨message, h⟩
      · exact ⟨[], h⟩
      · exact ⟨[Event.warning ("failed to send session response: " ++ message)], h⟩
    obtain ⟨mid, hmid⟩ := hpre
    refine ⟨mid ++ extra ++ [Event.gtk_main_quit], ?_, ?_⟩
    · rw [hdef]
      show (mate_settings_manager_stop env (send_end_session_response env w)).trace ++
        [Event.gtk_main_quit] = _
      rw [hstop, hextra, hmid]
      simp
    · have e1 : deactivations (w.trace ++ Event.end_session_response true :: mid ++ extra) =
          deactivations w.trace ++
            ((send_end_session_response env w).manager.priv.plugins.filter
              (fun d => d.enabled)).map (fun d => d.location) := by
        rw [← hmid, ← hextra, d1, s5]
      rw [s1] at e1
      have e2 : deactivations (w.trace ++ Event.end_session_response true :: mid ++ extra) =
          deactivations w.trace ++ (deactivations mid ++ deactivations extra) := by
        rw [List.append_assoc, deactivations_append]
        congr 1
        show deactivations ((Event.end_session_response true :: mid) ++ extra) = _
        rw [deactivations_append]
        rfl
      rw [e2] at e1
      have e3 := List.append_cancel_left e1
      rw [deactivations_append, deactivations_append, e3]
      simp [deactivations]
  · rw [hdef]
    simp [responses_append, responses, f2, s3]
  · rw [hdef]
    simp [quits_append, quits, f3, s4]
  · intro signal_name h1 h2
    unfold on_private_signal
    have n1 : ¬ strcmp signal_name "QueryEndSession" = 0 :=
      fun hc => h1 ((strcmp_eq_zero_iff _ _).1 hc)
    have n2 : ¬ strcmp signal_name "EndSession" = 0 :=
      fun hc => h2 ((strcmp_eq_zero_iff _ _).1 hc)
    simp [n1, n2]

/-- Witness of C15: a signal named `Stop` is neither `QueryEndSession` nor
`EndSession`, and it changes nothing. -/
theorem on_private_signal_end_session_witness :
    "Stop" ≠ "QueryEndSession" ∧ "Stop" ≠ "EndSession" ∧
    on_private_signal no_session_env "Stop" running_world = running_world :=
  ⟨by decide, by decide,
   (on_private_signal_end_session no_session_env running_world).2.2.2.2.2.2 "Stop"
     (by decide) (by decide)⟩

/-! ## The worked example -/

/-- C16: the worked example of the spec, with threshold 40.  The Eager pass registers
`a` (priority 10, enabled), `b` (priority 50, enabled) and `c` (priority 90, disabled)
and attempts activation of `a` only; the following Deferred pass attempts activation of
`b` only; the following Awake attempts activation of `a` and `b` only, which are Active
already, so nothing is activated again; `c` is never attempted and stays Inactive.  The
attempts are the same when every activation fails. -/
theorem worked_example :
    (eager_pass worked_env example_world).world.manager.priv.plugins =
      [{ location := "a", priority := 10, enabled := true, active := true },
       { location := "b", priority := 50, enabled := true, active := false },
       { location := "c", priority := 90, enabled := false, active := false }] ∧
    activations (eager_pass worked_env example_world).world.trace = ["a"] ∧
    activations (deferred_pass worked_env
      (eager_pass worked_env example_world).world).world.trace = ["a", "b"] ∧
    activations (mate_settings_manager_awake_handler worked_env
      (deferred_pass worked_env (eager_pass worked_env example_world).world).world).1.trace =
      ["a", "b", "a", "b"] ∧
    activated (mate_settings_manager_awake_handler worked_env
      (deferred_pass worked_env (eager_pass worked_env example_world).world).world).1.trace =
      ["a", "b"] ∧
    (mate_settings_manager_awake_handler worked_env
      (deferred_pass worked_env
        (eager_pass worked_env example_world).world).world).1.manager.priv.plugins =
      [{ location := "a", priority := 10, enabled := true, active := true },
       { location := "b", priority := 50, enabled := true, active := true },
       { location := "c", priority := 90, enabled := false, active := false }] ∧
    activations (eager_pass failing_env example_world).world.trace = ["a"] ∧
    activations (deferred_pass failing_env
      (eager_pass failing_env example_world).world).world.trace = ["a", "b"] ∧
    activations (mate_settings_manager_awake_handler failing_env
      (deferred_pass failing_env
        (eager_pass failing_env example_world).world).world).1.trace =
      ["a", "b", "a", "b"] := by
  decide

/-! ## Failing activations -/

theorem _load_dir_plugin_activate (env : Env)
    (f : List Event → MateSettingsPluginInfo → Bool) (w : World) (path : String) :
    _load_dir { env with plugin_activate := f } w path = _load_dir env w path := rfl

theorem mate_settings_manager_load_of_unsupported (env : Env) (w : World)
    (h : env.g_module_supported = false) :
    mate_settings_manager_load env w =
      { world := { w with trace := w.trace ++
          [Event.warning "mate-settings-daemon is not able to initialize the plugins."] },
        ret := false,
        error := some "Plugins not supported" } := by
  unfold mate_settings_manager_load
  simp [h]

/-- C17: failure of one plugin never aborts the pass.  For every environment, every
registry and every assignment `f` of success or failure to the individual activations,
the load pass attempts activation on the same descriptors in the same order as when
every activation succeeds, returns the same value with the same error, and leaves the
same descriptors in the same order, up to their activation state. -/
theorem mate_settings_manager_load_activation_outcomes (env : Env) (w : World)
    (f : List Event → MateSettingsPluginInfo → Bool) :
    activations (mate_settings_manager_load { env with plugin_activate := f } w).world.trace =
      activations (mate_settings_manager_load
        { env with plugin_activate := fun _ _ => true } w).world.trace ∧
    (mate_settings_manager_load { env with plugin_activate := f } w).ret =
      (mate_settings_manager_load { env with plugin_activate := fun _ _ => true } w).ret ∧
    (mate_settings_manager_load { env with plugin_activate := f } w).error =
      (mate_settings_manager_load { env with plugin_activate := fun _ _ => true } w).error ∧
    (mate_settings_manager_load
        { env with plugin_activate := f } w).world.manager.priv.plugins.map inactive =
      (mate_settings_manager_load
        { env with plugin_activate := fun _ _ => true } w).world.manager.priv.plugins.map
        inactive := by
  by_cases hs : env.g_module_supported = true
  · have h1 : ({ env with plugin_activate := f } : Env).g_module_supported = true := hs
    have h2 : ({ env with plugin_activate := fun _ _ => true } : Env).g_module_supported =
        true := hs
    obtain ⟨a1, a2, a3, a4, _, _⟩ := mate_settings_manager_load_supported _ w h1
    obtain ⟨b1, b2, b3, b4, _, _⟩ := mate_settings_manager_load_supported _ w h2
    rw [_load_dir_plugin_activate] at a3 a4 b3 b4
    exact ⟨a4.trans b4.symm, a1.trans b1.symm, a2.trans b2.symm, a3.trans b3.symm⟩
  · have hs' : env.g_module_supported = false := by
      cases h : env.g_module_supported
      · rfl
      · exact absurd h hs
    have h1 : ({ env with plugin_activate := f } : Env).g_module_supported = false := hs'
    have h2 : ({ env with plugin_activate := fun _ _ => true } : Env).g_module_supported =
        false := hs'
    rw [mate_settings_manager_load_of_unsupported _ w h1,
      mate_settings_manager_load_of_unsupported _ w h2]
    exact ⟨rfl, rfl, rfl, rfl⟩

/-! ## The exit status of `main` -/

/-- The four ways in which `main` ends. -/
theorem main_status (env : Env) :
    (main env).status = ExitStatus.exited EXIT_FAILURE ∨
    (main env).status = ExitStatus.aborted ∨
    (main env).status = ExitStatus.running ∨
    (main env).status = ExitStatus.returned 0 := by
  unfold main
  cases env.parse_args_failure with
  | some message => exact Or.inl rfl
  | none =>
    simp only
    split_ifs <;> simp

/-- When the command line parses, GTK initialises and the pipe is created, `main`
either returns 0 or is still in its main loop. -/
theorem main_returns_or_runs (env : Env) (h1 : env.parse_args_failure = none)
    (h2 : env.gtk_init_check = true) (h3 : env.pipe = true) :
    (main env).status = ExitStatus.returned 0 ∨ (main env).status = ExitStatus.running := by
  unfold main
  simp only [h1, h2, h3, Bool.not_true, Bool.false_eq_true, if_false]
  split_ifs <;> simp

/-- When the daemon is not started by D-Bus and modules are not supported, `main` logs
the failure of both bootstrap passes, does not enter the main loop and returns 0. -/
theorem main_unsupported (env : Env) (h1 : env.parse_args_failure = none)
    (h2 : env.gtk_init_check = true) (h3 : env.pipe = true)
    (h4 : env.DBUS_STARTER_BUS_TYPE = none) (h5 : env.g_module_supported = false) :
    main env =
      { status := ExitStatus.returned 0,
        trace := [Event.bus_own_name env.replace,
          Event.warning "mate-settings-daemon is not able to initialize the plugins.",
          Event.warning "Unable to start: Plugins not supported",
          Event.warning "mate-settings-daemon is not able to initialize the plugins.",
          Event.warning "Unable to start: Plugins not supported"] } := by
  unfold main eager_pass deferred_pass
  simp only [h1, h2, h3, h4, Option.isNone_none, if_true, Bool.not_true, Bool.false_eq_true,
    if_false, mate_settings_manager_load_of_unsupported _ _ h5]
  simp [mate_settings_manager_new, mate_settings_manager_set_init_flag,
    mate_settings_manager_stop, _unload_all, g_slist_foreach, mate_settings_manager_init,
    mate_settings_manager_set_replace]

/-- C18, amended: every return of `main` has exit code 0.  When the command line
parses, GTK initialises and the pipe is created, the process either is still in its
main loop or has returned 0 (orderly shutdown); and when the module system is
unsupported, so that `mate_settings_manager_load` fails in both bootstrap passes,
`main` logs "Unable to start" twice, skips the main loop and returns 0 as well. -/
theorem main_exit_code (env : Env) :
    (∀ c : Int, (main env).status = ExitStatus.returned c → c = 0) ∧
    (env.parse_args_failure = none → env.gtk_init_check = true → env.pipe = true →
      (main env).status = ExitStatus.returned 0 ∨ (main env).status = ExitStatus.running) ∧
    (env.parse_args_failure = none → env.gtk_init_check = true → env.pipe = true →
      env.DBUS_STARTER_BUS_TYPE = none → env.g_module_supported = false →
      main env =
        { status := ExitStatus.returned 0,
          trace := [Event.bus_own_name env.replace,
            Event.warning "mate-settings-daemon is not able to initialize the plugins.",
            Event.warning "Unable to start: Plugins not supported",
            Event.warning "mate-settings-daemon is not able to initialize the plugins.",
            Event.warning "Unable to start: Plugins not supported"] }) := by
  refine ⟨?_, main_returns_or_runs env, main_unsupported env⟩
  intro c hc
  rcases main_status env with h | h | h | h
  · rw [h] at hc; simp at hc
  · rw [h] at hc; simp at hc
  · rw [h] at hc; simp at hc
  · rw [h] at hc
    simp only [ExitStatus.returned.injEq] at hc
    exact hc.symm

/-- C18, counterexample: without module support both bootstrap passes fail, and the
process does not abort: `main` returns 0. -/
theorem main_returns_zero_without_module_support :
    unsupported_env.g_module_supported = false ∧
    (eager_pass unsupported_env
      { manager := (mate_settings_manager_new unsupported_env false initial_globals).2,
        trace := [] }).ret = false ∧
    (main unsupported_env).status = ExitStatus.returned 0 := by
  decide

/-- Witness of C18: the example environment shuts down in order on `EndSession`, and
the daemon started by D-Bus on the termination signal, both with exit code 0; without
module support `main` returns 0 too. -/
theorem main_exit_code_witness :
    (main example_env).status = ExitStatus.returned 0 ∧
    (main dbus_started_env).status = ExitStatus.returned 0 ∧
    (main unsupported_env).status = ExitStatus.returned 0 :=
  ⟨by decide, by decide,
   congrArg (fun r => r.status)
     ((main_exit_code unsupported_env).2.2 rfl rfl rfl rfl rfl)⟩

/-! ## The comparison of priorities -/

/-- The comparison `compare_priority` is a three-way comparison on two descriptors
whose priorities differ by less than `2^31`; it is zero exactly on equal priorities for
all 32-bit priorities. -/
theorem compare_priority_three_way (a b : MateSettingsPluginInfo)
    (ha : -2147483648 ≤ a.priority ∧ a.priority < 2147483648)
    (hb : -2147483648 ≤ b.priority ∧ b.priority < 2147483648) :
    (compare_priority a b = 0 ↔ a.priority = b.priority) ∧
    ((-2147483648 ≤ a.priority - b.priority ∧ a.priority - b.priority < 2147483648) →
      (compare_priority a b < 0 ↔ a.priority < b.priority) ∧
      (compare_priority a b > 0 ↔ a.priority > b.priority)) := by
  unfold compare_priority wrap32 mate_settings_plugin_info_get_priority
  simp only
  refine ⟨by omega, ?_⟩
  intro h
  constructor <;> omega

/-- C19, at the 32-bit priorities `a = 2^31 - 1` and `b = -1`: the difference `2^31`
wraps to `-2^31`, so `compare_priority` is negative although `a > b`; it is negative
in the other direction too. -/
theorem compare_priority_overflow :
    compare_priority
      { location := "hi", priority := 2147483647, enabled := true, active := false }
      { location := "lo", priority := -1, enabled := true, active := false } < 0 ∧
    compare_priority
      { location := "lo", priority := -1, enabled := true, active := false }
      { location := "hi", priority := 2147483647, enabled := true, active := false } < 0 ∧
    ¬ ((2147483647 : Int) < -1) := by
  decide

end MateSettings
